import Mathlib

/-!
Verification of the text-adventure command engine and world-state store.

The definitions below are a shallow embedding of the JavaScript sources:
`src/models/game-state.js` (class `GameState`, multiplayer version),
`src/models/quest.js` (class `Quest`), `src/models/generic-item.js`,
the `UniqueItem`, `Location` and `Game` model classes, and the
`GameEngine` class (parser, command handlers, quest engine).

JavaScript objects are modelled as insertion-ordered association lists
(`List (String × α)`): property read is the first matching key, property
write replaces the value in place when the key exists and appends
otherwise, `delete` removes the pair.  JavaScript string falsiness
(`""`, `null`/`undefined` are falsy; every object and array is truthy)
is modelled explicitly where the source relies on it.  Numbers are
modelled as `Int` (all quantities in the source are integers).
-/


/-- JS property read `m[k]`: first pair with the key. -/
def jsGet (m : List (String × α)) (k : String) : Option α :=
  (m.find? (fun p => p.1 = k)).map Prod.snd

/-- JS property write `m[k] = v`: replace in place, else append. -/
def jsSet (m : List (String × α)) (k : String) (v : α) : List (String × α) :=
  if (m.find? (fun p => p.1 = k)).isSome then
    m.map (fun p => if p.1 = k then (p.1, v) else p)
  else m ++ [(k, v)]

/-- JS `delete m[k]`. -/
def jsDelete (m : List (String × α)) (k : String) : List (String × α) :=
  m.filter (fun p => p.1 ≠ k)

/-- JS truthiness of a nullable string: `null`/`undefined` and `""` are falsy. -/
def jsTruthy : Option String → Bool
  | some s => s ≠ ""
  | none => false

/-- Collapse a JS-falsy string to `none` (`""` behaves like `null` in guards). -/
def jsStrOpt : Option String → Option String
  | some s => if s = "" then none else some s
  | none => none

/-- JS `a || b` on nullable strings (`""` is falsy). -/
def jsOrStr (a b : Option String) : Option String :=
  match jsStrOpt a with
  | some s => some s
  | none => b

/-- JS `a || d` where `d` is a plain string default. -/
def jsOrDefault (a : Option String) (d : String) : String :=
  match jsStrOpt a with
  | some s => s
  | none => d

/-- JS template-literal interpolation of a nullable string (`null` prints as "null"). -/
def optStr : Option String → String
  | some s => s
  | none => "null"

/-- JS `a || d` on a nullable number (`0` is falsy). -/
def jsOrInt (a : Option Int) (d : Int) : Int :=
  match a with
  | some n => if n = 0 then d else n
  | none => d

/-- ASCII lower-case table for `String.prototype.toLowerCase`. -/
def lowerPairs : List (Char × Char) :=
  [('A','a'),('B','b'),('C','c'),('D','d'),('E','e'),('F','f'),('G','g'),('H','h'),
   ('I','i'),('J','j'),('K','k'),('L','l'),('M','m'),('N','n'),('O','o'),('P','p'),
   ('Q','q'),('R','r'),('S','s'),('T','t'),('U','u'),('V','v'),('W','w'),('X','x'),
   ('Y','y'),('Z','z')]

def lowerChar (c : Char) : Char :=
  match lowerPairs.find? (fun p => p.1 = c) with
  | some p => p.2
  | none => c

/-- `s.toLowerCase()` (ASCII; game data and commands are ASCII). -/
def jsLower (s : String) : String := ⟨s.data.map lowerChar⟩

def upperChar (c : Char) : Char :=
  match lowerPairs.find? (fun p => p.2 = c) with
  | some p => p.1
  | none => c

/-- `s.toUpperCase()` (ASCII). -/
def jsUpper (s : String) : String := ⟨s.data.map upperChar⟩

def chStarts : List Char → List Char → Bool
  | _, [] => true
  | [], _ :: _ => false
  | c :: cs, d :: ds => c = d && chStarts cs ds

/-- `s.startsWith(pre)`. -/
def jsStartsWith (s pre : String) : Bool := chStarts s.data pre.data

def chContains (needle : List Char) : List Char → Bool
  | [] => chStarts [] needle
  | c :: cs => chStarts (c :: cs) needle || chContains needle cs

/-- `s.includes(needle)` (substring containment; the empty needle matches). -/
def jsIncludes (hay needle : String) : Bool := chContains needle.data hay.data

def jsIsWs (c : Char) : Bool := c = ' ' || c = '\t' || c = '\n' || c = '\r'

def splitWsAux : List Char → List Char → List String
  | [], acc => if acc.isEmpty then [] else [⟨acc.reverse⟩]
  | c :: cs, acc =>
    if jsIsWs c then
      (if acc.isEmpty then splitWsAux cs [] else (⟨acc.reverse⟩ : String) :: splitWsAux cs [])
    else splitWsAux cs (c :: acc)

/-- `s.split(/\s+/)` for strings without leading whitespace (every use site
splits an already-trimmed or token-joined string, where the two agree). -/
def jsSplitWs (s : String) : List String := splitWsAux s.data []

/-- `s.trim()`. -/
def jsTrim (s : String) : String :=
  ⟨((s.data.dropWhile jsIsWs).reverse.dropWhile jsIsWs).reverse⟩

/-- `array.join(sep)`. -/
def jsJoin (sep : String) : List String → String
  | [] => ""
  | [x] => x
  | x :: y :: rest => x ++ sep ++ jsJoin sep (y :: rest)

def digitPairs : List (Char × Nat) :=
  [('0', 0), ('1', 1), ('2', 2), ('3', 3), ('4', 4),
   ('5', 5), ('6', 6), ('7', 7), ('8', 8), ('9', 9)]

def digitVal (c : Char) : Option Nat :=
  (digitPairs.find? (fun p => p.1 = c)).map Prod.snd

def digitsVal : List Char → Option Nat
  | [] => none
  | cs => cs.foldl (fun acc c => match acc, digitVal c with
      | some n, some d => some (n * 10 + d)
      | _, _ => none) (some 0)

/-- Model of `!isNaN(tok) && parseInt(tok)` on a whitespace-free token: an
optional sign followed by decimal digits parses to its integer value.
(JS also accepts decimal-point literals; no claim involves them, and no
game command produces them, so they are not modelled.) -/
def jsParseIntToken (t : String) : Option Int :=
  match t.data with
  | '-' :: rest => (digitsVal rest).map (fun n => -(n : Int))
  | '+' :: rest => (digitsVal rest).map (fun n => (n : Int))
  | cs => (digitsVal cs).map (fun n => (n : Int))

/-- Number of spaces in a string. -/
def countSpaces (s : String) : Nat := s.data.count ' '

-- ===== World/player State Store (`GameState`, multiplayer version) =====

/-- One generic-item stack `{itemId, quantity}`. -/
structure Stack where
  itemId : String
  quantity : Int
deriving DecidableEq, Repr

/-- Dynamic container sub-state `{isLocked, isOpen}`. -/
structure ContainerState where
  isLocked : Bool
  isOpen : Bool
deriving DecidableEq, Repr

/-- Dynamic exit lock state `{isLocked}`. -/
structure ExitState where
  isLocked : Bool
deriving DecidableEq, Repr

/-- Per-player record in `GameState.players`. -/
structure PlayerRec where
  currentLocation : String
  score : Int
  turnCount : Int
  visitedLocations : List String
  flags : List (String × Bool)
deriving DecidableEq, Repr

/-- The mutable State Store (`class GameState`, multiplayer version). -/
structure GameState where
  gameId : String
  players : List (String × PlayerRec)
  activePlayerId : Option String
  uniqueItemLocations : List (String × String)
  genericItemStacks : List (String × List Stack)
  npcLocations : List (String × String)
  containerStates : List (String × ContainerState)
  exitStates : List (String × ExitState)
  flags : List (String × Bool)
  questStates : List (String × String)
deriving DecidableEq, Repr

def GameState.getActivePlayer (s : GameState) : Option PlayerRec :=
  jsGet s.players (optStr s.activePlayerId)

def GameState.getCurrentLocation (s : GameState) : Option String :=
  (s.getActivePlayer).map PlayerRec.currentLocation

/-- `movePlayer(locationId, playerId = null)`. -/
def GameState.movePlayer (s : GameState) (locationId : String) (playerId : Option String) :
    GameState :=
  let pid := optStr (jsOrStr playerId s.activePlayerId)
  match jsGet s.players pid with
  | none => s
  | some player =>
    let visited :=
      if player.visitedLocations.contains locationId then player.visitedLocations
      else player.visitedLocations ++ [locationId]
    let player' := { player with currentLocation := locationId, visitedLocations := visited, turnCount := player.turnCount + 1 }
    { s with players := jsSet s.players pid player' }

def GameState.getUniqueItemLocation (s : GameState) (itemId : String) : Option String :=
  jsGet s.uniqueItemLocations itemId

/-- `moveUniqueItem(itemId, toLocation, playerId = null)`. -/
def GameState.moveUniqueItem (s : GameState) (itemId toLocation : String)
    (playerId : Option String) : GameState :=
  let toLoc :=
    if toLocation = "inventory" then
      "inventory-" ++ optStr (jsOrStr playerId s.activePlayerId)
    else toLocation
  { s with uniqueItemLocations := jsSet s.uniqueItemLocations itemId toLoc }

def GameState.isUniqueItemInInventory (s : GameState) (itemId : String)
    (playerId : Option String) : Bool :=
  let pid := optStr (jsOrStr playerId s.activePlayerId)
  jsGet s.uniqueItemLocations itemId = some ("inventory-" ++ pid)

def GameState.getUniqueItemsAtLocation (s : GameState) (locationId : String) : List String :=
  (s.uniqueItemLocations.filter (fun p => p.2 = locationId)).map Prod.fst

def GameState.getUniqueItemsInInventory (s : GameState) (playerId : Option String) :
    List String :=
  let pid := optStr (jsOrStr playerId s.activePlayerId)
  s.getUniqueItemsAtLocation ("inventory-" ++ pid)

/-- The player-scoped rewrite of the special place id `"inventory"` that
`getGenericItemStack`/`addGenericItems`/`removeGenericItems` all perform inline. -/
def GameState.resolvePlace (s : GameState) (containerId : String)
    (playerId : Option String) : String :=
  if containerId = "inventory" then
    "inventory-" ++ optStr (jsOrStr playerId s.activePlayerId)
  else containerId

def GameState.getGenericItemStack (s : GameState) (containerId itemId : String)
    (playerId : Option String) : Option Stack :=
  let cid := s.resolvePlace containerId playerId
  match jsGet s.genericItemStacks cid with
  | none => none
  | some stks => stks.find? (fun st => st.itemId = itemId)

def GameState.getGenericItemQuantity (s : GameState) (containerId itemId : String)
    (playerId : Option String) : Int :=
  match s.getGenericItemStack containerId itemId playerId with
  | some st => st.quantity
  | none => 0

/-- Update the first stack of the given kind (JS mutates the stack object
returned by `find`). -/
def updFirstStack (itemId : String) (f : Stack → Stack) : List Stack → List Stack
  | [] => []
  | st :: rest =>
    if st.itemId = itemId then f st :: rest
    else st :: updFirstStack itemId f rest

def GameState.addGenericItems (s : GameState) (containerId itemId : String) (quantity : Int)
    (playerId : Option String) : GameState :=
  let cid := s.resolvePlace containerId playerId
  let stks := (jsGet s.genericItemStacks cid).getD []
  let stks' :=
    match stks.find? (fun st => st.itemId = itemId) with
    | some _ => updFirstStack itemId (fun st => { st with quantity := st.quantity + quantity }) stks
    | none => stks ++ [{ itemId := itemId, quantity := quantity }]
  { s with genericItemStacks := jsSet s.genericItemStacks cid stks' }

def GameState.removeGenericItems (s : GameState) (containerId itemId : String)
    (quantity : Int) (playerId : Option String) : GameState × Bool :=
  let cid := s.resolvePlace containerId playerId
  match jsGet s.genericItemStacks cid with
  | none => (s, false)
  | some stks =>
    match stks.find? (fun st => st.itemId = itemId) with
    | none => (s, false)
    | some st =>
      if st.quantity < quantity then (s, false)
      else
        let stks' := updFirstStack itemId
          (fun t => { t with quantity := t.quantity - quantity }) stks
        let stks'' :=
          if st.quantity - quantity = 0 then stks'.filter (fun t => t.itemId ≠ itemId)
          else stks'
        ({ s with genericItemStacks := jsSet s.genericItemStacks cid stks'' }, true)

def GameState.transferGenericItems (s : GameState) (fromContainerId toContainerId
    itemId : String) (quantity : Int) (playerId : Option String) : GameState × Bool :=
  match s.removeGenericItems fromContainerId itemId quantity playerId with
  | (s', true) => (s'.addGenericItems toContainerId itemId quantity playerId, true)
  | (s', false) => (s', false)

def GameState.getGenericItemStacksAt (s : GameState) (containerId : String)
    (playerId : Option String) : List Stack :=
  let cid := s.resolvePlace containerId playerId
  (jsGet s.genericItemStacks cid).getD []

def GameState.getContainerState (s : GameState) (containerId : String) : ContainerState :=
  (jsGet s.containerStates containerId).getD ({ isLocked := false, isOpen := true })

def GameState.isContainerLocked (s : GameState) (containerId : String) : Bool :=
  (s.getContainerState containerId).isLocked

def GameState.isContainerOpen (s : GameState) (containerId : String) : Bool :=
  (s.getContainerState containerId).isOpen

def GameState.unlockContainer (s : GameState) (containerId : String) : GameState :=
  let st := (jsGet s.containerStates containerId).getD ({ isLocked := false, isOpen := false })
  { s with containerStates := jsSet s.containerStates containerId ({ st with isLocked := false }) }

def GameState.openContainer (s : GameState) (containerId : String) : GameState :=
  let st := (jsGet s.containerStates containerId).getD ({ isLocked := false, isOpen := true })
  { s with containerStates := jsSet s.containerStates containerId ({ st with isOpen := true }) }

def GameState.closeContainer (s : GameState) (containerId : String) : GameState :=
  let st := (jsGet s.containerStates containerId).getD ({ isLocked := false, isOpen := false })
  { s with containerStates := jsSet s.containerStates containerId ({ st with isOpen := false }) }

def GameState.lockContainer (s : GameState) (containerId : String) : GameState :=
  let st := (jsGet s.containerStates containerId).getD ({ isLocked := true, isOpen := false })
  { s with containerStates := jsSet s.containerStates containerId ({ st with isLocked := true }) }

def GameState.getExitState (s : GameState) (locationId direction : String) : ExitState :=
  (jsGet s.exitStates (locationId ++ "-" ++ direction)).getD ({ isLocked := false })

def GameState.isExitLocked (s : GameState) (locationId direction : String) : Bool :=
  (s.getExitState locationId direction).isLocked

def GameState.unlockExit (s : GameState) (locationId direction : String) : GameState :=
  { s with exitStates := jsSet s.exitStates (locationId ++ "-" ++ direction) ⟨false⟩ }

def GameState.lockExit (s : GameState) (locationId direction : String) : GameState :=
  { s with exitStates := jsSet s.exitStates (locationId ++ "-" ++ direction) ⟨true⟩ }

def GameState.setFlag (s : GameState) (key : String) (value : Bool) : GameState :=
  { s with flags := jsSet s.flags key value }

def GameState.getFlag (s : GameState) (key : String) : Option Bool :=
  jsGet s.flags key

/-- Truthiness of `getFlag(key)` (the engine only stores boolean flags). -/
def GameState.flagTruthy (s : GameState) (key : String) : Bool :=
  (s.getFlag key).getD false

def GameState.setQuestState (s : GameState) (questId state : String) : GameState :=
  { s with questStates := jsSet s.questStates questId state }

def GameState.getQuestState (s : GameState) (questId : String) : Option String :=
  jsGet s.questStates questId

def GameState.addScore (s : GameState) (points : Int) (playerId : Option String) : GameState :=
  let pid := optStr (jsOrStr playerId s.activePlayerId)
  match jsGet s.players pid with
  | none => s
  | some player =>
    let player' := { player with score := player.score + points }
    { s with players := jsSet s.players pid player' }

-- ===== World Definition (immutable model classes) =====

/-- `GenericItem`: a fungible item kind. `namePlural` and `examineText` are
stored after the constructor defaults (`data.namePlural || name + "s"`,
`data.examineText || description`) have been applied. -/
structure GenericItem where
  id : String
  name : String
  namePlural : String
  description : String
  examineText : String
deriving DecidableEq, Repr

/-- `getDisplayName(quantity)`. -/
def GenericItem.getDisplayName (it : GenericItem) (quantity : Int) : String :=
  if quantity = 1 then it.name else it.namePlural

/-- `getDescription(quantity)`. -/
def GenericItem.getDescription (it : GenericItem) (quantity : Int) : String :=
  let name := it.getDisplayName quantity
  if quantity > 1 then toString quantity ++ " " ++ name else name

/-- `usesWith` can be a single id or an array of ids. -/
inductive UsesWith where
  | one (id : String)
  | many (ids : List String)
deriving DecidableEq, Repr

/-- Tagged condition records (`{type, ...params}`) used for exit reveal
conditions and item visibility conditions.  `custom` wraps the externally
supplied predicate; a non-function `check` is `custom none`. -/
inductive Cond where
  | hasItem (itemId : String) (anyPlayerAtLocation : Bool)
  | hasItemWithTag (tag : String) (anyPlayerAtLocation : Bool)
  | flagSet (flagName : String)
  | playerAtLocation (locationId : Option String)
  | custom (check : Option (GameState → Bool))
  | other

/-- `UniqueItem` as built by its constructor (defaults applied; note the
constructor copies no `tags` field, so engine tag checks always fail). -/
structure UniqueItem where
  id : String
  name : String
  description : String
  location : Option String
  takeable : Bool
  visible : Bool
  usable : Bool
  consumable : Bool
  isContainer : Bool
  contents : List Stack
  containerCapacity : Option Int
  isLocked : Bool
  isClosed : Bool
  requiredKey : Option String
  lockedMessage : Option String
  closedMessage : Option String
  examineText : String
  takeText : Option String
  dropText : Option String
  useText : Option String
  cantTakeText : Option String
  openText : Option String
  usesWith : Option UsesWith
  visibilityCondition : Option Cond

def UniqueItem.canTake (it : UniqueItem) : Bool := it.takeable && it.visible

def UniqueItem.canUseWith (it : UniqueItem) (targetId : String) : Bool :=
  if !it.usable then false
  else match it.usesWith with
  | none => true
  | some (UsesWith.many ids) => ids.contains targetId
  | some (UsesWith.one id) => id = targetId

def UniqueItem.getTakeMessage (it : UniqueItem) : String :=
  jsOrDefault it.takeText ("You take the " ++ it.name ++ ".")

def UniqueItem.getDropMessage (it : UniqueItem) : String :=
  jsOrDefault it.dropText ("You drop the " ++ it.name ++ ".")

def UniqueItem.getUseMessage (it : UniqueItem) : String :=
  jsOrDefault it.useText ("You use the " ++ it.name ++ ".")

def UniqueItem.getCantTakeMessage (it : UniqueItem) : String :=
  jsOrDefault it.cantTakeText ("You can't take the " ++ it.name ++ ".")

def UniqueItem.getOpenMessage (it : UniqueItem) : String :=
  match jsStrOpt it.openText with
  | some t => t
  | none =>
    if it.isContainer then "You open the " ++ it.name ++ "."
    else "You can't open the " ++ it.name ++ "."

/-- An exit record of a `Location` (kept as raw data by the constructor, so
optional authoring fields like `hidden`/`revealCondition` survive). -/
structure Exit where
  direction : String
  leadsTo : String
  locked : Bool
  lockedMessage : Option String
  requiredItem : Option String
  hidden : Bool
  revealCondition : Option Cond

/-- `Location` (the constructor copies no `requiresLight` field, so the
engine's darkness branch, which tests `location.requiresLight`, never fires). -/
structure Location where
  id : String
  name : String
  description : String
  exits : List Exit
  examineText : Option String

/-- One quest objective `{id, description, required}`. -/
structure Objective where
  id : String
  description : String
  required : Bool
deriving DecidableEq, Repr

/-- `Quest` as built by its constructor (defaults applied). -/
structure Quest where
  id : String
  name : String
  description : String
  isMainQuest : Bool
  initialState : String
  objectives : List Objective
  requireAllObjectives : Bool
  scoreReward : Int
  itemRewards : List String
  startTrigger : Option (GameState → Bool)
  completionCheck : Option (GameState → Bool)
  startMessage : Option String
  completionMessage : Option String
  failMessage : Option String

/-- `Quest.isComplete(gameState)`. -/
def Quest.isComplete (q : Quest) (s : GameState) : Bool :=
  if s.getQuestState q.id ≠ some "active" then false
  else
    match q.completionCheck with
    | some check => check s
    | none =>
      if q.objectives.isEmpty then false
      else if q.requireAllObjectives then
        q.objectives.all (fun obj =>
          !obj.required || s.flagTruthy ("quest-" ++ q.id ++ "-objective-" ++ obj.id))
      else
        q.objectives.any (fun obj =>
          s.flagTruthy ("quest-" ++ q.id ++ "-objective-" ++ obj.id))

def Quest.getCompletionMessage (q : Quest) : String :=
  jsOrDefault q.completionMessage ("You have completed the quest: " ++ q.name ++ "!")

/-- NPC records are kept as raw data. -/
structure Npc where
  id : String
  location : Option String

/-- `Game`: the validated world definition. -/
structure Game where
  id : String
  title : String
  author : String
  version : String
  description : String
  objective : String
  startLocation : String
  locations : List Location
  genericItems : List GenericItem
  uniqueItems : List UniqueItem
  npcs : List Npc
  quests : List Quest

/-- Lookup through the `Map` built by `buildLookupMaps` (`Map.set` makes the
last entry with a given id win). -/
def mapLast (l : List α) (key : α → String) (k : String) : Option α :=
  l.reverse.find? (fun x => key x = k)

def Game.getLocation (g : Game) (locationId : String) : Option Location :=
  mapLast g.locations Location.id locationId

def Game.getGenericItem (g : Game) (itemId : String) : Option GenericItem :=
  mapLast g.genericItems GenericItem.id itemId

def Game.getUniqueItem (g : Game) (itemId : String) : Option UniqueItem :=
  mapLast g.uniqueItems UniqueItem.id itemId

def Game.getQuests (g : Game) : List Quest := g.quests

def Game.getMainQuest (g : Game) : Option Quest :=
  g.quests.find? (fun q => q.isMainQuest)

-- ===== GameState construction (fresh game and saved-state load) =====

/-- Loop body of the constructor's `game.uniqueItems.forEach`. -/
def initUniqueStep (s : GameState) (item : UniqueItem) : GameState :=
  let s := match jsStrOpt item.location with
    | some l => { s with uniqueItemLocations := jsSet s.uniqueItemLocations item.id l }
    | none => s
  let s := if item.isContainer && !item.contents.isEmpty then
      { s with genericItemStacks := jsSet s.genericItemStacks item.id item.contents }
    else s
  if item.isContainer then
    { s with containerStates := jsSet s.containerStates item.id ⟨item.isLocked, !item.isClosed⟩ }
  else s

/-- Loop body of the constructor's `game.npcs.forEach`. -/
def initNpcStep (s : GameState) (npc : Npc) : GameState :=
  match jsStrOpt npc.location with
  | some l => { s with npcLocations := jsSet s.npcLocations npc.id l }
  | none => s

/-- Loop body of the constructor's `game.quests.forEach`. -/
def initQuestStep (s : GameState) (q : Quest) : GameState :=
  { s with questStates := jsSet s.questStates q.id (jsOrDefault (some q.initialState) "inactive") }

/-- Body of the constructor's exit loop: `exitStates[exitKey] = {isLocked:
exit.locked || (exit.requiredItem ? true : false)}`. -/
def initExitStep (lid : String) (s : GameState) (ex : Exit) : GameState :=
  let key := lid ++ "-" ++ ex.direction
  let st : ExitState := ⟨ex.locked || jsTruthy ex.requiredItem⟩
  { s with exitStates := jsSet s.exitStates key st }

def initLocStep (s : GameState) (loc : Location) : GameState :=
  loc.exits.foldl (initExitStep loc.id) s

/-- The fresh-state branch of the `GameState` constructor
(`new GameState(game)` with no `existingState`). -/
def GameState.initFromGame (g : Game) : GameState :=
  let s0 : GameState :=
    { gameId := g.id
      players := []
      activePlayerId := none
      uniqueItemLocations := []
      genericItemStacks := []
      npcLocations := []
      containerStates := []
      exitStates := []
      flags := []
      questStates := [] }
  let s1 := g.uniqueItems.foldl initUniqueStep s0
  let s2 := g.npcs.foldl initNpcStep s1
  let s3 := g.quests.foldl initQuestStep s2
  g.locations.foldl initLocStep s3

/-- The record produced by `GameState.toJSON` and consumed by the load branch
of the constructor.  Fields that a legacy (single-player) save may carry are
optional. `timestamp` is `new Date().toISOString()`, passed in as `now`. -/
structure Snapshot where
  gameId : String
  players : Option (List (String × PlayerRec))
  activePlayerId : Option String
  uniqueItemLocations : Option (List (String × String))
  genericItemStacks : Option (List (String × List Stack))
  npcLocations : Option (List (String × String))
  containerStates : Option (List (String × ContainerState))
  exitStates : Option (List (String × ExitState))
  flags : Option (List (String × Bool))
  questStates : Option (List (String × String))
  currentLocation : Option String
  score : Option Int
  turnCount : Option Int
  visitedLocations : Option (List String)
  timestamp : String
deriving DecidableEq, Repr

/-- `GameState.toJSON()`. -/
def GameState.toJSON (s : GameState) (now : String) : Snapshot :=
  { gameId := s.gameId
    players := some s.players
    activePlayerId := s.activePlayerId
    uniqueItemLocations := some s.uniqueItemLocations
    genericItemStacks := some s.genericItemStacks
    npcLocations := some s.npcLocations
    containerStates := some s.containerStates
    exitStates := some s.exitStates
    flags := some s.flags
    questStates := some s.questStates
    currentLocation := none
    score := none
    turnCount := none
    visitedLocations := none
    timestamp := now }

/-- The load branch of the `GameState` constructor
(`new GameState(game, existingState)`); `nowMs` is `Date.now()`, used only to
name the synthetic player of a migrated legacy save. -/
def GameState.ofSnapshot (snap : Snapshot) (nowMs : Nat) : GameState :=
  if jsTruthy snap.currentLocation && snap.players.isNone then
    let legacyId := "legacy-player-" ++ toString nowMs
    let invKey := "inventory-" ++ legacyId
    let curLoc := (jsStrOpt snap.currentLocation).getD ""
    let legacyPlayer : PlayerRec :=
      { currentLocation := curLoc
        score := jsOrInt snap.score 0
        turnCount := jsOrInt snap.turnCount 0
        visitedLocations := match snap.visitedLocations with
          | some v => v
          | none => [curLoc]
        flags := [] }
    let uil := match snap.uniqueItemLocations with
      | some u => some (u.map (fun (p : String × String) => if p.2 = "inventory" then (p.1, invKey) else p))
      | none => none
    let gis := match snap.genericItemStacks with
      | some gmap =>
        match jsGet gmap "inventory" with
        | some inv => some (jsDelete (jsSet gmap invKey inv) "inventory")
        | none => some gmap
      | none => none
    { gameId := snap.gameId
      players := [(legacyId, legacyPlayer)]
      activePlayerId := some legacyId
      uniqueItemLocations := uil.getD []
      genericItemStacks := gis.getD []
      npcLocations := snap.npcLocations.getD []
      containerStates := snap.containerStates.getD []
      exitStates := snap.exitStates.getD []
      flags := snap.flags.getD []
      questStates := snap.questStates.getD [] }
  else
    { gameId := snap.gameId
      players := snap.players.getD []
      activePlayerId := jsStrOpt snap.activePlayerId
      uniqueItemLocations := snap.uniqueItemLocations.getD []
      genericItemStacks := snap.genericItemStacks.getD []
      npcLocations := snap.npcLocations.getD []
      containerStates := snap.containerStates.getD []
      exitStates := snap.exitStates.getD []
      flags := snap.flags.getD []
      questStates := snap.questStates.getD [] }

-- ===== GameEngine: parser tables and object resolution =====

/-- The engine's verb synonym table (`this.verbSynonyms`; `Object.entries`
iterates in insertion order). -/
def verbSynonyms : List (String × List String) :=
  [("LOOK", ["look", "l", "examine room", "describe"]),
   ("GO", ["go", "walk", "run", "move", "head", "travel"]),
   ("NORTH", ["north", "n"]),
   ("SOUTH", ["south", "s"]),
   ("EAST", ["east", "e"]),
   ("WEST", ["west", "w"]),
   ("UP", ["up", "u", "climb up"]),
   ("DOWN", ["down", "d", "climb down"]),
   ("TAKE", ["take", "get", "grab", "pick up", "pick", "acquire"]),
   ("DROP", ["drop", "discard", "put down", "leave"]),
   ("END", ["end", "end turn", "wait", "pass"]),
   ("INVENTORY", ["inventory", "i", "inv"]),
   ("EXAMINE", ["examine", "ex", "x", "inspect", "look at", "check"]),
   ("OPEN", ["open", "look inside", "look in"]),
   ("UNLOCK", ["unlock"]),
   ("LOCK", ["lock"]),
   ("CLOSE", ["close", "shut"]),
   ("USE", ["use", "employ", "activate"]),
   ("PUT", ["put", "place", "insert"]),
   ("QUEST", ["quest", "q", "mission"]),
   ("QUESTS", ["quests", "missions", "objectives"])]

def prepositions : List String :=
  ["in", "into", "inside", "on", "onto", "at", "to", "from", "with", "using"]

def articles : List String := ["a", "an", "the", "some", "my"]

/-- A parsed quantity: a number or the `ALL` sentinel. -/
inductive Quantity where
  | num (n : Int)
  | all
deriving DecidableEq, Repr

def numberWords : List (String × Quantity) :=
  [("one", .num 1), ("two", .num 2), ("three", .num 3), ("four", .num 4), ("five", .num 5),
   ("six", .num 6), ("seven", .num 7), ("eight", .num 8), ("nine", .num 9), ("ten", .num 10),
   ("all", .all), ("everything", .all)]

/-- `tokenize(input)`: lowercase, split on whitespace, drop articles. -/
def tokenize (input : String) : List String :=
  (jsSplitWs (jsTrim (jsLower input))).filter (fun w => !articles.contains w)

/-- `normalizeVerb(word)`: first canonical verb whose synonym list holds the word. -/
def normalizeVerb (word : String) : Option String :=
  (verbSynonyms.find? (fun p => p.2.contains word)).map Prod.fst

def isPreposition (word : String) : Bool := prepositions.contains word

/-- A structured command as produced by the parser. -/
structure Parsed where
  verb : String
  quantity : Option Quantity
  directObject : Option String
  indirectObject : Option String
  preposition : Option String
deriving DecidableEq, Repr

inductive PatternResult where
  | failed (error : String)
  | parsed (cmd : Parsed)
deriving DecidableEq, Repr

/-- Split the token list at the first preposition. -/
def splitAtPrep : List String → Option (List String × String × List String)
  | [] => none
  | t :: rest =>
    if isPreposition t then some ([], t, rest)
    else match splitAtPrep rest with
      | some (pre, p, post) => some (t :: pre, p, post)
      | none => none

/-- `parseObjects(verb, tokens)`: strip an optional leading quantity token,
then split direct object / preposition / indirect object. -/
def parseObjects (verb : String) (tokens : List String) : Parsed :=
  match tokens with
  | [] => { verb := verb, quantity := none, directObject := none,
            indirectObject := none, preposition := none }
  | first :: rest =>
    let (quantity, objectTokens) : Option Quantity × List String :=
      match jsParseIntToken first with
      | some n => (some (Quantity.num n), rest)
      | none =>
        match jsGet numberWords first with
        | some q => (some q, rest)
        | none => (none, first :: rest)
    match splitAtPrep objectTokens with
    | none =>
      { verb := verb, quantity := quantity,
        directObject := jsStrOpt (some (jsJoin " " objectTokens)),
        indirectObject := none, preposition := none }
    | some (pre, p, post) =>
      { verb := verb, quantity := quantity,
        directObject := jsStrOpt (some (jsJoin " " pre)),
        indirectObject := jsStrOpt (some (jsJoin " " post)),
        preposition := jsStrOpt (some p) }

/-- The verb-resolution phase of `matchPattern`: the source tries a 2-word
phrase, then (only if that failed) a 3-word phrase, then the bare first
token, and keeps the unconsumed tokens. -/
def codeResolveVerb : List String → Option (String × List String)
  | [] => none
  | t0 :: rest0 =>
    let step2 : Option (String × List String) :=
      match rest0 with
      | t1 :: rest1 =>
        match normalizeVerb (t0 ++ " " ++ t1) with
        | some v => some (v, rest1)
        | none => none
      | [] => none
    let step3 : Option (String × List String) :=
      match step2 with
      | some r => some r
      | none =>
        match rest0 with
        | t1 :: t2 :: rest2 =>
          match normalizeVerb (t0 ++ " " ++ t1 ++ " " ++ t2) with
          | some v => some (v, rest2)
          | none => none
        | _ => none
    match step3 with
    | some r => some r
    | none => (normalizeVerb t0).map (fun v => (v, rest0))

/-- `matchPattern(tokens)`: resolve the verb, rewrite bare directions to GO
commands, then parse the remaining tokens. -/
def matchPattern (tokens : List String) : PatternResult :=
  match tokens with
  | [] => .failed "I don't understand that."
  | t0 :: rest0 =>
    match codeResolveVerb (t0 :: rest0) with
    | none => .failed ("I don't know the word \"" ++ t0 ++ "\".")
    | some (verb, remaining) =>
      if ["NORTH", "SOUTH", "EAST", "WEST", "UP", "DOWN"].contains verb then
        .parsed { verb := "GO", quantity := none, directObject := some (jsLower verb),
                  indirectObject := none, preposition := none }
      else
        .parsed (parseObjects verb remaining)

-- ===== GameEngine: object resolution helpers =====

/-- `matchesName(item, searchName)`: exact, plural, substring and
word-by-word matching (shared by unique and generic items; unique items
have no `namePlural` field). -/
def matchesNameCore (itemName0 : String) (namePlural : Option String)
    (searchName : String) : Bool :=
  let itemName := jsLower itemName0
  let search := jsLower searchName
  if itemName = search then true
  else
    let pluralHit :=
      match jsStrOpt namePlural with
      | some np =>
        let pluralName := jsLower np
        pluralName = search || jsIncludes pluralName search || jsIncludes search pluralName
      | none => false
    if pluralHit then true
    else if jsIncludes itemName search then true
    else
      let itemWords := jsSplitWs itemName
      let searchWords := jsSplitWs search
      searchWords.all (fun sw => itemWords.any (fun iw => jsStartsWith iw sw))

def UniqueItem.matchesName (it : UniqueItem) (search : String) : Bool :=
  matchesNameCore it.name none search

def GenericItem.matchesName (it : GenericItem) (search : String) : Bool :=
  matchesNameCore it.name (some it.namePlural) search

/-- `findUniqueItemAtLocation(name)`. -/
def findUniqueItemAtLocation (g : Game) (s : GameState) (name : String) :
    Option UniqueItem :=
  match jsStrOpt s.getCurrentLocation with
  | none => none
  | some cur =>
    ((s.getUniqueItemsAtLocation cur).filterMap (fun id => g.getUniqueItem id)).find?
      (fun it => it.visible && it.matchesName name)

/-- `findUniqueItemInInventory(name)` (no visibility check). -/
def findUniqueItemInInventory (g : Game) (s : GameState) (name : String) :
    Option UniqueItem :=
  ((s.getUniqueItemsInInventory none).filterMap (fun id => g.getUniqueItem id)).find?
    (fun it => it.matchesName name)

/-- First stack in the list whose generic item resolves and matches the name. -/
def findStackByName (g : Game) (name : String) : List Stack → Option (GenericItem × Stack)
  | [] => none
  | st :: rest =>
    match g.getGenericItem st.itemId with
    | some item =>
      if item.matchesName name then some (item, st) else findStackByName g name rest
    | none => findStackByName g name rest

/-- `findGenericItemAtLocation(name)`. -/
def findGenericItemAtLocation (g : Game) (s : GameState) (name : String) :
    Option (GenericItem × Stack) :=
  match jsStrOpt s.getCurrentLocation with
  | none => none
  | some cur => findStackByName g name (s.getGenericItemStacksAt cur none)

/-- `findGenericItemInInventory(name)`. -/
def findGenericItemInInventory (g : Game) (s : GameState) (name : String) :
    Option (GenericItem × Stack) :=
  findStackByName g name (s.getGenericItemStacksAt "inventory" none)

/-- Ids of players whose record is at the location (`Object.keys` order). -/
def playersAtLoc (s : GameState) (locationId : String) : List String :=
  (s.players.filter (fun p => p.2.currentLocation = locationId)).map Prod.fst

/-- `playerHasItemWithTag(playerId, tag)`.  The `UniqueItem` constructor never
copies a `tags` field, so `item.tags` is always undefined and the inner
check is constantly false; the iteration structure is kept. -/
def playerHasItemWithTag (g : Game) (s : GameState) (playerId : String)
    (tag : String) : Bool :=
  let inventoryKey := "inventory-" ++ playerId
  let itemsInInventory :=
    (s.uniqueItemLocations.filter (fun p => p.2 = inventoryKey)).map Prod.fst
  itemsInInventory.any (fun itemId =>
    match g.getUniqueItem itemId with
    | some _ => false
    | none => false)

/-- `isExitRevealed(locationId, exit)`. -/
def isExitRevealed (g : Game) (s : GameState) (locationId : String) (ex : Exit) : Bool :=
  if !ex.hidden then true
  else
    match ex.revealCondition with
    | none => false
    | some cond =>
      match cond with
      | Cond.hasItem itemId anyP =>
        if anyP then
          (playersAtLoc s locationId).any (fun pid =>
            s.isUniqueItemInInventory itemId (some pid))
        else s.isUniqueItemInInventory itemId none
      | Cond.hasItemWithTag tag anyP =>
        if anyP then
          (playersAtLoc s locationId).any (fun pid => playerHasItemWithTag g s pid tag)
        else playerHasItemWithTag g s (optStr s.activePlayerId) tag
      | Cond.flagSet flagName => s.getFlag flagName = some true
      | Cond.custom (some check) => check s
      | Cond.custom none => false
      | Cond.playerAtLocation _ => false
      | Cond.other => false

/-- `isItemVisible(item, locationId)`. -/
def isItemVisible (g : Game) (s : GameState) (it : UniqueItem) (locationId : String) : Bool :=
  if !it.visible then false
  else
    match it.visibilityCondition with
    | none => true
    | some cond =>
      match cond with
      | Cond.playerAtLocation condLoc =>
        let target := jsOrDefault condLoc locationId
        !(playersAtLoc s target).isEmpty
      | Cond.hasItem itemId anyP =>
        if anyP then
          (playersAtLoc s locationId).any (fun pid =>
            s.isUniqueItemInInventory itemId (some pid))
        else s.isUniqueItemInInventory itemId none
      | Cond.hasItemWithTag tag anyP =>
        if anyP then
          (playersAtLoc s locationId).any (fun pid => playerHasItemWithTag g s pid tag)
        else playerHasItemWithTag g s (optStr s.activePlayerId) tag
      | Cond.flagSet flagName => s.getFlag flagName = some true
      | Cond.custom (some check) => check s
      | Cond.custom none => false
      | Cond.other => true

/-- `checkQuestDiscovery(locationId)`: may flip the shed quest to active;
returns the new state and the quest start message (possibly null). -/
def checkQuestDiscovery (g : Game) (s : GameState) (locationId : String) :
    GameState × Option String :=
  if locationId = "forest-clearing" then
    match g.quests.find? (fun q => q.id = "explore-shed") with
    | some shedQuest =>
      if s.getQuestState "explore-shed" = some "inactive" then
        (s.setQuestState "explore-shed" "active", shedQuest.startMessage)
      else (s, none)
    | none => (s, none)
  else (s, none)

/-- `getLocationDescription()`: builds the description text; mutates state
only through `checkQuestDiscovery`.  (`location.requiresLight` is undefined
for `Location` instances, so the darkness branch of the source never runs.) -/
def getLocationDescription (g : Game) (s : GameState) : GameState × String :=
  match jsStrOpt s.getCurrentLocation with
  | none => (s, "ERROR: No active player or location.")
  | some cur =>
    match g.getLocation cur with
    | none => (s, "ERROR: Location not found.")
    | some loc =>
      let output0 := ["**" ++ loc.name ++ "**", loc.description]
      let uniqueIds := s.getUniqueItemsAtLocation cur
      let output1 :=
        if !uniqueIds.isEmpty then
          let visibleItems := ((uniqueIds.filterMap (fun id => g.getUniqueItem id)).filter
            (fun it => isItemVisible g s it cur))
          if !visibleItems.isEmpty then
            output0 ++ ["\nYou see: " ++ jsJoin ", " (visibleItems.map UniqueItem.name)]
          else output0
        else output0
      let gstks := s.getGenericItemStacksAt cur none
      let output2 :=
        if !gstks.isEmpty then
          let descs := gstks.filterMap (fun st =>
            (g.getGenericItem st.itemId).map (fun it => it.getDescription st.quantity))
          if !descs.isEmpty then output1 ++ ["There are: " ++ jsJoin ", " descs]
          else output1
        else output1
      let output3 :=
        if !loc.exits.isEmpty then
          let visibleExits := loc.exits.filter (fun e =>
            if !e.hidden then true else isExitRevealed g s cur e)
          if !visibleExits.isEmpty then
            output2 ++ ["\nObvious exits: " ++ jsJoin ", " (visibleExits.map Exit.direction)]
          else output2
        else output2
      let (s', qmsg) := checkQuestDiscovery g s cur
      let output4 :=
        match jsStrOpt qmsg with
        | some m => output3 ++ ["\n" ++ m]
        | none => output3
      (s', jsJoin "\n" output4)

-- ===== GameEngine: command handlers =====

/-- `cmdLook(target)`. -/
def cmdExamine (g : Game) (s : GameState) (objectName : Option String) : String :=
  match jsStrOpt objectName with
  | none => "Examine what?"
  | some name =>
    let u :=
      match findUniqueItemAtLocation g s name with
      | some it => some it
      | none => findUniqueItemInInventory g s name
    match u with
    | some it => jsOrDefault (some it.examineText) it.description
    | none =>
      let gr :=
        match findGenericItemAtLocation g s name with
        | some r => some r
        | none => findGenericItemInInventory g s name
      match gr with
      | some (item, _) => jsOrDefault (some item.examineText) item.description
      | none => "I don't see that here."

def cmdLook (g : Game) (s : GameState) (target : Option String) : GameState × String :=
  match jsStrOpt target with
  | none => getLocationDescription g s
  | some t => (s, cmdExamine g s (some t))

/-- `cmdGo(direction)` body; `fuel` bounds the source's self-call, which
happens at most once (immediately after the exit is unlocked the re-run
takes the unlocked branch), so the zero-fuel case is unreachable from
`cmdGo` below. -/
def cmdGoAux (g : Game) : Nat → GameState → String → GameState × String
  | 0, s, _ => (s, "")
  | fuel + 1, s, direction =>
    match jsStrOpt s.getCurrentLocation with
    | none => (s, "ERROR: No active player or location.")
    | some cur =>
      match g.getLocation cur with
      | none => (s, "You can't go anywhere from here.")
      | some loc =>
        match loc.exits.find? (fun e =>
          jsLower e.direction = direction || jsStartsWith (jsLower e.direction) direction) with
        | none => (s, "You can't go " ++ direction ++ " from here.")
        | some ex =>
          if s.isExitLocked cur ex.direction then
            match jsStrOpt ex.requiredItem with
            | some ri =>
              if s.isUniqueItemInInventory ri none then
                let itemName := ((g.getUniqueItem ri).map UniqueItem.name).getD "undefined"
                let s1 := s.unlockExit cur ex.direction
                let r := cmdGoAux g fuel s1 direction
                (r.1, "You use the " ++ itemName ++ " to unlock the way " ++ ex.direction ++
                      ".\n\n" ++ r.2)
              else (s, jsOrDefault ex.lockedMessage "That way is locked.")
            | none => (s, jsOrDefault ex.lockedMessage "That way is locked.")
          else
            let s1 := s.movePlayer ex.leadsTo none
            let s2 :=
              if ex.leadsTo = "old-shed" then
                s1.setFlag "quest-explore-shed-objective-enter-shed" true
              else s1
            getLocationDescription g s2

def cmdGo (g : Game) (s : GameState) (direction : Option String) : GameState × String :=
  match jsStrOpt direction with
  | none => (s, "Go where?")
  | some dir => cmdGoAux g 2 s dir

/-- `takeFromContainer(objectName, containerName, quantity)`. -/
def takeFromContainer (g : Game) (s : GameState) (objectName containerName : String)
    (quantity : Option Quantity) : GameState × String :=
  match findUniqueItemAtLocation g s containerName with
  | none => (s, "I don't see " ++ containerName ++ " here.")
  | some container =>
    if !container.isContainer then (s, "The " ++ container.name ++ " is not a container.")
    else if !(s.isContainerOpen container.id) then
      (s, jsOrDefault container.closedMessage ("The " ++ container.name ++ " is closed."))
    else
      match findStackByName g objectName (s.getGenericItemStacksAt container.id none) with
      | none => (s, "There's no " ++ objectName ++ " in the " ++ container.name ++ ".")
      | some (item, stack) =>
        let proceed : Int → GameState × String := fun actualQty =>
          match s.transferGenericItems container.id "inventory" item.id actualQty none with
          | (s1, true) =>
            let s2 :=
              if container.id = "treasure-chest" && (item.id = "gold-coin" || item.id = "gem") then
                s1.setFlag "quest-find-treasure-objective-collect-treasure" true
              else s1
            (s2, "You take " ++ item.getDescription actualQty ++ " from the " ++
                 container.name ++ ".")
          | (s1, false) => (s1, "You can't take that.")
        match quantity with
        | none => proceed stack.quantity
        | some Quantity.all => proceed stack.quantity
        | some (Quantity.num n) =>
          if n > stack.quantity then
            (s, "There are only " ++ toString stack.quantity ++ " " ++
                item.getDisplayName stack.quantity ++ " in the " ++ container.name ++ ".")
          else proceed (min n stack.quantity)

/-- `cmdTake(objectName, fromObject, prep, quantity)`. -/
def cmdTake (g : Game) (s : GameState) (objectName fromObject prep : Option String)
    (quantity : Option Quantity) : GameState × String :=
  match jsStrOpt objectName with
  | none => (s, "Take what?")
  | some name =>
    if jsTruthy fromObject && jsTruthy prep then
      takeFromContainer g s name (fromObject.getD "") quantity
    else
      match findUniqueItemAtLocation g s name with
      | some uniqueItem =>
        if !uniqueItem.canTake then (s, uniqueItem.getCantTakeMessage)
        else
          (s.moveUniqueItem uniqueItem.id "inventory" none, uniqueItem.getTakeMessage)
      | none =>
        match findGenericItemAtLocation g s name with
        | some (item, stack) =>
          let actualQty :=
            match quantity with
            | none => stack.quantity
            | some Quantity.all => stack.quantity
            | some (Quantity.num n) => min n stack.quantity
          match s.transferGenericItems (optStr s.getCurrentLocation) "inventory"
              item.id actualQty none with
          | (s1, true) => (s1, "You take " ++ item.getDescription actualQty ++ ".")
          | (s1, false) => (s1, "I don't see that here.")
        | none => (s, "I don't see that here.")

/-- `cmdDrop(objectName, quantity)`. -/
def cmdDrop (g : Game) (s : GameState) (objectName : Option String)
    (quantity : Option Quantity) : GameState × String :=
  match jsStrOpt objectName with
  | none => (s, "Drop what?")
  | some name =>
    let cur := optStr s.getCurrentLocation
    match findUniqueItemInInventory g s name with
    | some uniqueItem =>
      (s.moveUniqueItem uniqueItem.id cur none, uniqueItem.getDropMessage)
    | none =>
      match findGenericItemInInventory g s name with
      | some (item, stack) =>
        let proceed : Int → GameState × String := fun actualQty =>
          match s.transferGenericItems "inventory" cur item.id actualQty none with
          | (s1, true) => (s1, "You drop " ++ item.getDescription actualQty ++ ".")
          | (s1, false) => (s1, "You don't have that.")
        match quantity with
        | none => proceed stack.quantity
        | some Quantity.all => proceed stack.quantity
        | some (Quantity.num n) =>
          if n > stack.quantity then
            (s, "You only have " ++ toString stack.quantity ++ " " ++
                item.getDisplayName stack.quantity ++ ".")
          else proceed (min n stack.quantity)
      | none => (s, "You don't have that.")

/-- `cmdInventory()`. -/
def cmdInventory (g : Game) (s : GameState) : String :=
  let uniqueItems := s.getUniqueItemsInInventory none
  let gstks := s.getGenericItemStacksAt "inventory" none
  if uniqueItems.isEmpty && gstks.isEmpty then "You aren't carrying anything."
  else
    let out := ["You are carrying:"]
      ++ uniqueItems.filterMap (fun id => (g.getUniqueItem id).map (fun it => "  " ++ it.name))
      ++ gstks.filterMap (fun st =>
          (g.getGenericItem st.itemId).map (fun it => "  " ++ it.getDescription st.quantity))
    jsJoin "\n" out

/-- `cmdOpen(objectName)`. -/
def cmdOpen (g : Game) (s : GameState) (objectName : Option String) : GameState × String :=
  match jsStrOpt objectName with
  | none => (s, "Open what?")
  | some name =>
    match findUniqueItemAtLocation g s name with
    | none => (s, "I don't see that here.")
    | some it =>
      if !it.isContainer then (s, "You can't open the " ++ it.name ++ ".")
      else if s.isContainerLocked it.id then
        (s, jsOrDefault it.lockedMessage ("The " ++ it.name ++ " is locked."))
      else if s.isContainerOpen it.id then
        let gstks := s.getGenericItemStacksAt it.id none
        if gstks.isEmpty then (s, "The " ++ it.name ++ " is already open and empty.")
        else
          let out := ["The " ++ it.name ++ " is already open.\nInside you see:"]
            ++ gstks.filterMap (fun st =>
                (g.getGenericItem st.itemId).map (fun i => "  " ++ i.getDescription st.quantity))
          (s, jsJoin "\n" out)
      else
        let s1 := s.openContainer it.id
        let gstks := s1.getGenericItemStacksAt it.id none
        if gstks.isEmpty then (s1, "You open the " ++ it.name ++ ". It's empty.")
        else
          let out := [it.getOpenMessage, "\nInside you see:"]
            ++ gstks.filterMap (fun st =>
                (g.getGenericItem st.itemId).map (fun i => "  " ++ i.getDescription st.quantity))
          (s1, jsJoin "\n" out)

def cmdEndTurn : String := "You end your turn."

/-- Inventory items matching an explicit "with <key>" clause. -/
def matchingInventoryKeys (g : Game) (s : GameState) (keyName : String) : List UniqueItem :=
  ((s.getUniqueItemsInInventory none).filterMap (fun id => g.getUniqueItem id)).filter
    (fun it => it.matchesName keyName)

/-- Exit selected by `cmdUnlock`/`cmdLock` for a named object. -/
def findExitByName (loc : Location) (objectName : String) : Option Exit :=
  loc.exits.find? (fun e =>
    jsLower e.direction = jsLower objectName ||
    jsStartsWith (jsLower e.direction) (jsLower objectName) ||
    jsIncludes (jsLower objectName) (jsLower e.direction))

/-- `cmdUnlock(objectName, keyName, prep)`. -/
def cmdUnlock (g : Game) (s : GameState) (objectName keyName prep : Option String) :
    GameState × String :=
  match jsStrOpt objectName with
  | none => (s, "Unlock what?")
  | some name =>
    let container? :=
      match findUniqueItemAtLocation g s name with
      | some it => if it.isContainer then some it else none
      | none => none
    match container? with
    | some it =>
      if !(s.isContainerLocked it.id) then (s, "The " ++ it.name ++ " is already unlocked.")
      else if jsTruthy keyName && jsTruthy prep then
        let kn := keyName.getD ""
        match matchingInventoryKeys g s kn with
        | [] => (s, "You don't have " ++ kn ++ ".")
        | k0 :: ks =>
          match jsStrOpt it.requiredKey with
          | some rk =>
            match (k0 :: ks).find? (fun k => k.id = rk) with
            | some correctKey =>
              (s.unlockContainer it.id,
               "You unlock the " ++ it.name ++ " with the " ++ correctKey.name ++ ".")
            | none => (s, "None of your keys fit the lock.")
          | none =>
            (s.unlockContainer it.id,
             "You unlock the " ++ it.name ++ " with the " ++ k0.name ++ ".")
      else
        match jsStrOpt it.requiredKey with
        | some rk =>
          match g.getUniqueItem rk with
          | some key =>
            if s.isUniqueItemInInventory key.id none then
              (s.unlockContainer it.id,
               "You unlock the " ++ it.name ++ " with the " ++ key.name ++ ".")
            else (s, "You need a key to unlock the " ++ it.name ++ ".")
          | none => (s, "You need a key to unlock the " ++ it.name ++ ".")
        | none => (s.unlockContainer it.id, "You unlock the " ++ it.name ++ ".")
    | none =>
      let cur := optStr s.getCurrentLocation
      let loc? :=
        match s.getCurrentLocation with
        | some c => g.getLocation c
        | none => none
      match loc? with
      | none => (s, "I don't see that here.")
      | some loc =>
        match findExitByName loc name with
        | none => (s, "I don't see that here.")
        | some ex =>
          if !(s.isExitLocked cur ex.direction) then
            (s, "The way " ++ ex.direction ++ " is already unlocked.")
          else if jsTruthy keyName && jsTruthy prep then
            let kn := keyName.getD ""
            match matchingInventoryKeys g s kn with
            | [] => (s, "You don't have " ++ kn ++ ".")
            | k0 :: ks =>
              match jsStrOpt ex.requiredItem with
              | some ri =>
                match (k0 :: ks).find? (fun k => k.id = ri) with
                | some correctKey =>
                  (s.unlockExit cur ex.direction,
                   "You unlock the way " ++ ex.direction ++ " with the " ++
                   correctKey.name ++ ".")
                | none => (s, "None of your keys fit the lock.")
              | none =>
                (s.unlockExit cur ex.direction,
                 "You unlock the way " ++ ex.direction ++ " with the " ++ k0.name ++ ".")
          else
            match jsStrOpt ex.requiredItem with
            | some ri =>
              match g.getUniqueItem ri with
              | some item =>
                if s.isUniqueItemInInventory item.id none then
                  (s.unlockExit cur ex.direction,
                   "You unlock the way " ++ ex.direction ++ " with the " ++ item.name ++ ".")
                else (s, "You need something to unlock the way " ++ ex.direction ++ ".")
              | none => (s, "You need something to unlock the way " ++ ex.direction ++ ".")
            | none => (s.unlockExit cur ex.direction, "You unlock the way " ++ ex.direction ++ ".")

/-- `cmdLock(objectName, keyName, prep)`. -/
def cmdLock (g : Game) (s : GameState) (objectName keyName prep : Option String) :
    GameState × String :=
  match jsStrOpt objectName with
  | none => (s, "Lock what?")
  | some name =>
    let container? :=
      match findUniqueItemAtLocation g s name with
      | some it => if it.isContainer then some it else none
      | none => none
    match container? with
    | some it =>
      if s.isContainerLocked it.id then (s, "The " ++ it.name ++ " is already locked.")
      else if s.isContainerOpen it.id then
        (s, "You need to close the " ++ it.name ++ " before you can lock it.")
      else if jsTruthy keyName && jsTruthy prep then
        let kn := keyName.getD ""
        match matchingInventoryKeys g s kn with
        | [] => (s, "You don't have " ++ kn ++ ".")
        | k0 :: ks =>
          match jsStrOpt it.requiredKey with
          | some rk =>
            match (k0 :: ks).find? (fun k => k.id = rk) with
            | some correctKey =>
              (s.lockContainer it.id,
               "You lock the " ++ it.name ++ " with the " ++ correctKey.name ++ ".")
            | none => (s, "None of your keys fit the lock.")
          | none =>
            (s.lockContainer it.id,
             "You lock the " ++ it.name ++ " with the " ++ k0.name ++ ".")
      else
        match jsStrOpt it.requiredKey with
        | some rk =>
          match g.getUniqueItem rk with
          | some key =>
            if s.isUniqueItemInInventory key.id none then
              (s.lockContainer it.id,
               "You lock the " ++ it.name ++ " with the " ++ key.name ++ ".")
            else (s, "You need a key to lock the " ++ it.name ++ ".")
          | none => (s, "You need a key to lock the " ++ it.name ++ ".")
        | none => (s.lockContainer it.id, "You lock the " ++ it.name ++ ".")
    | none =>
      let cur := optStr s.getCurrentLocation
      let loc? :=
        match s.getCurrentLocation with
        | some c => g.getLocation c
        | none => none
      match loc? with
      | none => (s, "I don't see that here.")
      | some loc =>
        match findExitByName loc name with
        | none => (s, "I don't see that here.")
        | some ex =>
          if s.isExitLocked cur ex.direction then
            (s, "The way " ++ ex.direction ++ " is already locked.")
          else if jsTruthy keyName && jsTruthy prep then
            let kn := keyName.getD ""
            match matchingInventoryKeys g s kn with
            | [] => (s, "You don't have " ++ kn ++ ".")
            | k0 :: ks =>
              match jsStrOpt ex.requiredItem with
              | some ri =>
                match (k0 :: ks).find? (fun k => k.id = ri) with
                | some correctKey =>
                  (s.lockExit cur ex.direction,
                   "You lock the way " ++ ex.direction ++ " with the " ++
                   correctKey.name ++ ".")
                | none => (s, "None of your keys fit the lock.")
              | none =>
                (s.lockExit cur ex.direction,
                 "You lock the way " ++ ex.direction ++ " with the " ++ k0.name ++ ".")
          else
            match jsStrOpt ex.requiredItem with
            | some ri =>
              match g.getUniqueItem ri with
              | some item =>
                if s.isUniqueItemInInventory item.id none then
                  (s.lockExit cur ex.direction,
                   "You lock the way " ++ ex.direction ++ " with the " ++ item.name ++ ".")
                else (s, "You need something to lock the way " ++ ex.direction ++ ".")
              | none => (s, "You need something to lock the way " ++ ex.direction ++ ".")
            | none => (s.lockExit cur ex.direction, "You lock the way " ++ ex.direction ++ ".")

/-- `cmdClose(objectName)`. -/
def cmdClose (g : Game) (s : GameState) (objectName : Option String) : GameState × String :=
  match jsStrOpt objectName with
  | none => (s, "Close what?")
  | some name =>
    match findUniqueItemAtLocation g s name with
    | none => (s, "I don't see that here.")
    | some it =>
      if !it.isContainer then (s, "You can't close the " ++ it.name ++ ".")
      else if !(s.isContainerOpen it.id) then (s, "The " ++ it.name ++ " is already closed.")
      else (s.closeContainer it.id, "You close the " ++ it.name ++ ".")

/-- `cmdUse(objectName, targetName, prep)`. -/
def cmdUse (g : Game) (s : GameState) (objectName targetName : Option String) : String :=
  match jsStrOpt objectName with
  | none => "Use what?"
  | some name =>
    match findUniqueItemInInventory g s name with
    | none => "You don't have that."
    | some item =>
      if !item.usable then "You can't use the " ++ item.name ++ "."
      else if jsTruthy targetName && !(item.canUseWith (targetName.getD "")) then
        "You can't use the " ++ item.name ++ " with that."
      else item.getUseMessage

/-- `cmdPut(objectName, containerName, prep)`. -/
def cmdPut (objectName containerName : Option String) : String :=
  if !(jsTruthy objectName) || !(jsTruthy containerName) then "Put what where?"
  else "Putting items in containers is not yet fully implemented."

/-- `cmdQuest(questName)`: list quests or show one quest (read-only). -/
def cmdQuest (g : Game) (s : GameState) (questName : Option String) : String :=
  let quests := g.getQuests
  if quests.isEmpty then "There are no quests in this game."
  else
    match jsStrOpt questName with
    | none =>
      let discovered := quests.foldl (fun (acc : List String) q =>
        let state := s.getQuestState q.id
        if state = some "inactive" then acc
        else
          let statusIcon :=
            match state with
            | some "active" => "[ACTIVE]"
            | some "completed" => "[COMPLETE]"
            | some "failed" => "[FAILED]"
            | _ => ""
          let questType := if q.isMainQuest then " (MAIN QUEST)" else ""
          let acc := acc ++ [statusIcon ++ " " ++ q.name ++ questType]
          if state = some "active" && !q.objectives.isEmpty then
            acc ++ q.objectives.map (fun obj =>
              let completed := s.flagTruthy ("quest-" ++ q.id ++ "-objective-" ++ obj.id)
              let checkmark := if completed then "[✓]" else "[ ]"
              "    " ++ checkmark ++ " " ++ obj.description)
          else acc) []
      if discovered.isEmpty then "You haven't discovered any quests yet."
      else
        jsJoin "\n" (["=== QUESTS ==="] ++ discovered ++
          ["\nUse QUEST <name> to view details of a specific quest."])
    | some qn =>
      match quests.find? (fun q =>
        jsIncludes (jsLower q.name) (jsLower qn) || jsLower q.id = jsLower qn) with
      | none => "Quest '" ++ qn ++ "' not found. Use QUESTS to see all quests."
      | some quest =>
        let state := s.getQuestState quest.id
        -- the source calls `state.toUpperCase()`, which throws when the quest
        -- has no state entry; modelled via the "null" interpolation
        let out := ["=== " ++ jsUpper quest.name ++ " ==="]
          ++ (if quest.isMainQuest then ["[MAIN QUEST]"] else [])
          ++ ["\nStatus: " ++ jsUpper (optStr state)]
          ++ ["\n" ++ quest.description]
          ++ (if !quest.objectives.isEmpty && state = some "active" then
                ["\nObjectives:"] ++ quest.objectives.map (fun obj =>
                  let completed := s.flagTruthy ("quest-" ++ quest.id ++ "-objective-" ++ obj.id)
                  let checkmark := if completed then "[✓]" else "[ ]"
                  "  " ++ checkmark ++ " " ++ obj.description)
              else [])
          ++ (if state = some "completed" && quest.scoreReward > 0 then
                ["\nReward: " ++ toString quest.scoreReward ++ " points"]
              else [])
        jsJoin "\n" out

/-- `this.state.uniqueItemLocations[itemId] = inventoryKey` for one quest
item reward. -/
def rewardStep (s : GameState) (itemId : String) : GameState :=
  let invKey := "inventory-" ++ optStr s.activePlayerId
  { s with uniqueItemLocations := jsSet s.uniqueItemLocations itemId invKey }

/-- Loop body of `checkQuestProgress`'s `quests.forEach`. -/
def questStep (acc : GameState × List String) (quest : Quest) : GameState × List String :=
  let s := acc.1
  let msgs := acc.2
  if s.getQuestState quest.id ≠ some "active" then (s, msgs)
  else if quest.isComplete s then
    let s := s.setQuestState quest.id "completed"
    let s := if quest.scoreReward > 0 then s.addScore quest.scoreReward none else s
    let s := quest.itemRewards.foldl rewardStep s
    let msgs := msgs ++ [quest.getCompletionMessage]
    let msgs :=
      if quest.isMainQuest then
        msgs ++ ["\n=== GAME COMPLETE ===\nYou have completed the main quest!"]
      else msgs
    (s, msgs)
  else (s, msgs)

/-- `checkQuestProgress()`: after each turn, complete every active quest whose
`isComplete` holds, applying score and item rewards. -/
def checkQuestProgress (g : Game) (s : GameState) : GameState × Option String :=
  let r := g.quests.foldl questStep (s, [])
  (r.1, if !r.2.isEmpty then some (jsJoin "\n\n" r.2) else none)

-- ===== GameEngine: dispatch and top-level parse =====

/-- Verbs that do not consume a turn (`nonTurnCommands`). -/
def nonTurnCommands : List String := ["LOOK", "INVENTORY", "EXAMINE", "QUEST", "QUESTS"]

/-- `executeCommand(parsed)`: returns the mutated state, the response text and
the consumes-turn flag (computed from the verb alone, before dispatch). -/
def executeCommand (g : Game) (s : GameState) (p : Parsed) : GameState × String × Bool :=
  let consumesTurn := !(nonTurnCommands.contains p.verb)
  let res : GameState × String :=
    match p.verb with
    | "LOOK" => cmdLook g s p.directObject
    | "GO" => cmdGo g s p.directObject
    | "TAKE" => cmdTake g s p.directObject p.indirectObject p.preposition p.quantity
    | "DROP" => cmdDrop g s p.directObject p.quantity
    | "INVENTORY" => (s, cmdInventory g s)
    | "EXAMINE" => (s, cmdExamine g s p.directObject)
    | "OPEN" => cmdOpen g s p.directObject
    | "END" => (s, cmdEndTurn)
    | "UNLOCK" => cmdUnlock g s p.directObject p.indirectObject p.preposition
    | "LOCK" => cmdLock g s p.directObject p.indirectObject p.preposition
    | "CLOSE" => cmdClose g s p.directObject
    | "USE" => (s, cmdUse g s p.directObject p.indirectObject)
    | "PUT" => (s, cmdPut p.directObject p.indirectObject)
    | "QUEST" => (s, cmdQuest g s p.directObject)
    | "QUESTS" => (s, cmdQuest g s p.directObject)
    | v => (s, "I don't know how to " ++ jsLower v ++ ".")
  (res.1, res.2, consumesTurn)

/-- Tail of the case-insensitive regex `^(?:quest|quests)\s+(.+)$` after the
verb word: at least one whitespace character, then a nonempty remainder
without a newline (with the regex engine's backtracking when the remainder
is all whitespace). -/
def regexQuestTail (rest : List Char) : Option (List Char) :=
  let r0 := rest.dropWhile jsIsWs
  if (rest.takeWhile jsIsWs).isEmpty then none
  else if !r0.isEmpty then
    if r0.contains '\n' then none else some r0
  else if rest.length ≥ 2 then
    match rest.getLast? with
    | some c => if c = '\n' then none else some [c]
    | none => none
  else none

/-- `command.match(/^(?:quest|quests)\s+(.+)$/i)`, capture group trimmed. -/
def questArgMatch (cmd : String) : Option String :=
  let cs := cmd.data
  let try5 :=
    if (cs.take 5).map lowerChar = "quest".data then regexQuestTail (cs.drop 5) else none
  match try5 with
  | some r => some (jsTrim ⟨r⟩)
  | none =>
    if (cs.take 6).map lowerChar = "quests".data then
      (regexQuestTail (cs.drop 6)).map (fun r => jsTrim ⟨r⟩)
    else none

/-- `parseCommand(input)`: trim, tokenize, match, then execute; parse errors
return without touching the state and without consuming a turn. -/
def parseCommand (g : Game) (s : GameState) (input : String) : GameState × String × Bool :=
  let command := jsTrim input
  if command = "" then (s, "Please enter a command.", false)
  else
    let tokens := tokenize command
    if tokens.isEmpty then (s, "I don't understand that.", false)
    else
      match matchPattern tokens with
      | PatternResult.failed e => (s, e, false)
      | PatternResult.parsed result =>
        let result :=
          if result.verb = "QUEST" || result.verb = "QUESTS" then
            match questArgMatch command with
            | some arg => { result with directObject := some arg }
            | none => result
          else result
        executeCommand g s result

-- ===== Shared concrete fixtures =====

def baseStore : GameState :=
  { gameId := "demo"
    players := [("p1", { currentLocation := "room", score := 0, turnCount := 0,
                         visitedLocations := ["room"], flags := [] })]
    activePlayerId := some "p1"
    uniqueItemLocations := []
    genericItemStacks := []
    npcLocations := []
    containerStates := []
    exitStates := []
    flags := []
    questStates := [] }

-- ===== C10: initial exit lock states =====

/-- The `(key, state)` writes the constructor's exit loop performs, in order. -/
def exitEntries (g : Game) : List (String × ExitState) :=
  g.locations.flatMap (fun loc => loc.exits.map (fun ex =>
    (loc.id ++ "-" ++ ex.direction,
     (⟨ex.locked || jsTruthy ex.requiredItem⟩ : ExitState))))

def exitKeys (g : Game) : List String := (exitEntries g).map Prod.fst

/-- World with two distinct exits whose composite keys collide:
location "a" exit "b-c" (statically locked) and location "a-b" exit "c"
(unlocked).  Both write the key "a-b-c". -/
def collideGame : Game :=
  { id := "cg", title := "t", author := "a", version := "1", description := "",
    objective := "", startLocation := "a",
    locations :=
      [{ id := "a", name := "A", description := "d",
         exits := [{ direction := "b-c", leadsTo := "a-b", locked := true,
                     lockedMessage := none, requiredItem := none, hidden := false,
                     revealCondition := none }],
         examineText := none },
       { id := "a-b", name := "AB", description := "d",
         exits := [{ direction := "c", leadsTo := "a", locked := false,
                     lockedMessage := none, requiredItem := none, hidden := false,
                     revealCondition := none }],
         examineText := none }],
    genericItems := [], uniqueItems := [], npcs := [], quests := [] }

def plainExitN : Exit :=
  { direction := "north", leadsTo := "shed", locked := false, lockedMessage := none,
    requiredItem := some "iron-key", hidden := false, revealCondition := none }

def plainExitS : Exit :=
  { direction := "south", leadsTo := "shed", locked := false, lockedMessage := none,
    requiredItem := none, hidden := false, revealCondition := none }

def plainLoc : Location :=
  { id := "room", name := "Room", description := "d", exits := [plainExitN, plainExitS],
    examineText := none }

/-- Collision-free world for the C10 witness. -/
def plainGame : Game :=
  { id := "pg", title := "t", author := "a", version := "1", description := "",
    objective := "", startLocation := "room",
    locations := [plainLoc,
      { id := "shed", name := "Shed", description := "d", exits := [], examineText := none }],
    genericItems := [], uniqueItems := [], npcs := [], quests := [] }

/-- The source stack list after a successful `removeGenericItems`. -/
def removedStacks (itemId : String) (q : Int) (stks : List Stack) (st : Stack) : List Stack :=
  let stks' := updFirstStack itemId (fun t => { t with quantity := t.quantity - q }) stks
  if st.quantity - q = 0 then stks'.filter (fun t => t.itemId ≠ itemId) else stks'

/-- The destination stack list after `addGenericItems`. -/
def addedStacks (itemId : String) (q : Int) (stks : List Stack) : List Stack :=
  match stks.find? (fun st => st.itemId = itemId) with
  | some _ => updFirstStack itemId (fun st => { st with quantity := st.quantity + q }) stks
  | none => stks ++ [{ itemId := itemId, quantity := q }]

def c1Store : GameState :=
  { baseStore with genericItemStacks := [("chest", [⟨"gold-coin", 5⟩])] }

def c8Store : GameState := { baseStore with activePlayerId := some "" }

-- ===== C3: verb resolution order =====

/-- Modelled from the spec: verb resolution "attempts a 3-token lookup, then
a 2-token lookup, then a 1-token lookup against the verb-synonym table". -/
def specResolveVerb : List String → Option (String × List String)
  | [] => none
  | t0 :: rest0 =>
    let try3 : Option (String × List String) :=
      match rest0 with
      | t1 :: t2 :: rest2 =>
        match normalizeVerb (t0 ++ " " ++ t1 ++ " " ++ t2) with
        | some v => some (v, rest2)
        | none => none
      | _ => none
    match try3 with
    | some r => some r
    | none =>
      let try2 : Option (String × List String) :=
        match rest0 with
        | t1 :: rest1 =>
          match normalizeVerb (t0 ++ " " ++ t1) with
          | some v => some (v, rest1)
          | none => none
        | [] => none
      match try2 with
      | some r => some r
      | none => (normalizeVerb t0).map (fun v => (v, rest0))

def c4Quest : Quest :=
  { id := "empty-quest", name := "EQ", description := "d", isMainQuest := true,
    initialState := "active", objectives := [], requireAllObjectives := true,
    scoreReward := 0, itemRewards := [], startTrigger := none, completionCheck := none,
    startMessage := none, completionMessage := none, failMessage := none }

def onlyLoc : Location :=
  { id := "room", name := "Room", description := "d", exits := [], examineText := none }

def c4Game : Game :=
  { id := "qg", title := "t", author := "a", version := "1", description := "",
    objective := "", startLocation := "room", locations := [onlyLoc],
    genericItems := [], uniqueItems := [], npcs := [], quests := [c4Quest] }

def c4State : GameState := { baseStore with questStates := [("empty-quest", "active")] }

def c4bQuest : Quest :=
  { id := "two-obj", name := "TQ", description := "d", isMainQuest := true,
    initialState := "active",
    objectives := [{ id := "first", description := "do first", required := true },
                   { id := "second", description := "do second", required := true }],
    requireAllObjectives := true, scoreReward := 10, itemRewards := [],
    startTrigger := none, completionCheck := none, startMessage := none,
    completionMessage := none, failMessage := none }

def c4bGame : Game :=
  { id := "qg2", title := "t", author := "a", version := "1", description := "",
    objective := "", startLocation := "room", locations := [onlyLoc],
    genericItems := [], uniqueItems := [], npcs := [], quests := [c4bQuest] }

def c4bState : GameState :=
  { baseStore with questStates := [("two-obj", "active")],
                   flags := [("quest-two-obj-objective-first", true)] }

def c7Chest : UniqueItem :=
  { id := "chest", name := "wooden chest", description := "a chest", location := some "room",
    takeable := false, visible := true, usable := false, consumable := false,
    isContainer := true, contents := [], containerCapacity := none, isLocked := true,
    isClosed := true, requiredKey := some "iron-key", lockedMessage := none,
    closedMessage := none, examineText := "a chest", takeText := none, dropText := none,
    useText := none, cantTakeText := none, openText := none, usesWith := none,
    visibilityCondition := none }

def c7Coin : UniqueItem :=
  { id := "coin-item", name := "gold coin", description := "a coin", location := none,
    takeable := true, visible := true, usable := false, consumable := false,
    isContainer := false, contents := [], containerCapacity := none, isLocked := false,
    isClosed := true, requiredKey := none, lockedMessage := none, closedMessage := none,
    examineText := "a coin", takeText := none, dropText := none, useText := none,
    cantTakeText := none, openText := none, usesWith := none, visibilityCondition := none }

def c7Game : Game :=
  { id := "ug", title := "t", author := "a", version := "1", description := "",
    objective := "", startLocation := "room", locations := [onlyLoc],
    genericItems := [], uniqueItems := [c7Chest, c7Coin], npcs := [], quests := [] }

def c7State : GameState :=
  { baseStore with
      uniqueItemLocations := [("chest", "room"), ("coin-item", "inventory-p1")]
      containerStates := [("chest", ⟨true, false⟩)] }

-- ===== C5: TAKE/DROP quantity handling =====

def c5Coin : GenericItem :=
  { id := "gold-coin", name := "gold coin", namePlural := "gold coins",
    description := "shiny coins", examineText := "shiny coins" }

def c5Game : Game :=
  { id := "tg", title := "t", author := "a", version := "1", description := "",
    objective := "", startLocation := "room", locations := [onlyLoc],
    genericItems := [c5Coin], uniqueItems := [], npcs := [], quests := [] }

def c5State : GameState :=
  { baseStore with genericItemStacks := [("room", [⟨"gold-coin", 3⟩])] }

def c5Chest : UniqueItem :=
  { id := "c5-chest", name := "big chest", description := "a big chest",
    location := some "room", takeable := false, visible := true, usable := false,
    consumable := false, isContainer := true, contents := [], containerCapacity := none,
    isLocked := false, isClosed := false, requiredKey := none, lockedMessage := none,
    closedMessage := none, examineText := "a big chest", takeText := none,
    dropText := none, useText := none, cantTakeText := none, openText := none,
    usesWith := none, visibilityCondition := none }

def c5bGame : Game :=
  { id := "tg2", title := "t", author := "a", version := "1", description := "",
    objective := "", startLocation := "room", locations := [onlyLoc],
    genericItems := [c5Coin], uniqueItems := [c5Chest], npcs := [], quests := [] }

def c5bState : GameState :=
  { baseStore with
      uniqueItemLocations := [("c5-chest", "room")]
      genericItemStacks := [("c5-chest", [⟨"gold-coin", 3⟩]),
                            ("inventory-p1", [⟨"gold-coin", 2⟩])]
      containerStates := [("c5-chest", ⟨false, true⟩)] }

/-- The player record after `movePlayer`. -/
def movedRec (pl : PlayerRec) (L : String) : PlayerRec :=
  { pl with currentLocation := L,
            visitedLocations :=
              if pl.visitedLocations.contains L then pl.visitedLocations
              else pl.visitedLocations ++ [L],
            turnCount := pl.turnCount + 1 }

def c2ExN : Exit :=
  { direction := "north", leadsTo := "shed", locked := false, lockedMessage := none,
    requiredItem := some "iron-key", hidden := false, revealCondition := none }

def c2ExE : Exit :=
  { direction := "east", leadsTo := "shed", locked := true,
    lockedMessage := some "The east door is barred.", requiredItem := none,
    hidden := false, revealCondition := none }

def c2ExS : Exit :=
  { direction := "south", leadsTo := "shed", locked := false, lockedMessage := none,
    requiredItem := none, hidden := false, revealCondition := none }

def c2Room : Location :=
  { id := "room", name := "Room", description := "A room.",
    exits := [c2ExN, c2ExE, c2ExS], examineText := none }

def c2Shed : Location :=
  { id := "shed", name := "Shed", description := "A shed.", exits := [], examineText := none }

def c2Key : UniqueItem :=
  { id := "iron-key", name := "iron key", description := "a key", location := some "room",
    takeable := true, visible := true, usable := true, consumable := false,
    isContainer := false, contents := [], containerCapacity := none, isLocked := false,
    isClosed := false, requiredKey := none, lockedMessage := none, closedMessage := none,
    examineText := "a key", takeText := none, dropText := none, useText := none,
    cantTakeText := none, openText := none, usesWith := none, visibilityCondition := none }

def c2Game : Game :=
  { id := "c2g", title := "t", author := "a", version := "1", description := "",
    objective := "", startLocation := "room", locations := [c2Room, c2Shed],
    genericItems := [], uniqueItems := [c2Key], npcs := [], quests := [] }

def c2P : PlayerRec :=
  { currentLocation := "room", score := 0, turnCount := 0, visitedLocations := ["room"],
    flags := [] }

def c2State : GameState :=
  { gameId := "c2g", players := [("p1", c2P)], activePlayerId := some "p1",
    uniqueItemLocations := [("iron-key", "inventory-p1")], genericItemStacks := [],
    npcLocations := [], containerStates := [],
    exitStates := [("room-north", ⟨true⟩), ("room-east", ⟨true⟩)], flags := [],
    questStates := [] }

-- ===== Association-list lemmas =====

theorem jsGet_cons (p : String × α) (m : List (String × α)) (k : String) :
    jsGet (p :: m) k = if p.1 = k then some p.2 else jsGet m k := by
  by_cases h : p.1 = k <;> simp [jsGet, List.find?, h]

theorem jsGet_nil (k : String) : jsGet ([] : List (String × α)) k = none := rfl

theorem jsGet_append (m₁ m₂ : List (String × α)) (k : String) :
    jsGet (m₁ ++ m₂) k =
      match jsGet m₁ k with
      | some v => some v
      | none => jsGet m₂ k := by
  induction m₁ with
  | nil => simp [jsGet_nil]
  | cons p m ih =>
    by_cases h : p.1 = k <;> simp [jsGet_cons, h, ih]

theorem jsGet_map_upd (m : List (String × α)) (k k' : String) (v : α) :
    jsGet (m.map (fun p => if p.1 = k then (p.1, v) else p)) k' =
      if k' = k then (jsGet m k).map (fun _ => v) else jsGet m k' := by
  induction m with
  | nil => simp [jsGet_nil]
  | cons p m ih =>
    by_cases hp : p.1 = k
    · by_cases hk : k' = k
      · simp [jsGet_cons, hp, hk]
      · have hne : k ≠ k' := fun h => hk h.symm
        simp [jsGet_cons, hp, hk, hne, ih]
    · by_cases hk : k' = k
      · subst hk
        simp [jsGet_cons, hp, ih]
      · by_cases hk' : p.1 = k' <;> simp [jsGet_cons, hp, hk, hk', ih]

theorem jsGet_isSome_find (m : List (String × α)) (k : String) :
    (jsGet m k).isSome = (m.find? (fun p => p.1 = k)).isSome := by
  simp [jsGet]

/-- Master read-after-write lemma for the JS object model. -/
theorem jsGet_jsSet (m : List (String × α)) (k k' : String) (v : α) :
    jsGet (jsSet m k v) k' = if k' = k then some v else jsGet m k' := by
  unfold jsSet
  by_cases hf : (m.find? (fun p => p.1 = k)).isSome
  · rw [if_pos hf, jsGet_map_upd]
    by_cases hk : k' = k
    · rw [if_pos hk, if_pos hk]
      rw [← jsGet_isSome_find] at hf
      cases hj : jsGet m k with
      | none => rw [hj] at hf; simp at hf
      | some w => simp
    · rw [if_neg hk, if_neg hk]
  · rw [if_neg hf, jsGet_append]
    rw [← jsGet_isSome_find] at hf
    have hnone : jsGet m k = none := by
      cases hj : jsGet m k with
      | none => rfl
      | some w => rw [hj] at hf; simp at hf
    by_cases hk : k' = k
    · subst hk; rw [hnone]; simp [jsGet_cons]
    · have hne : k ≠ k' := fun h => hk h.symm
      cases hj : jsGet m k' with
      | none => simp [jsGet_cons, jsGet_nil, hk, hne]
      | some w => simp [hk]

theorem jsGet_jsSet_self (m : List (String × α)) (k : String) (v : α) :
    jsGet (jsSet m k v) k = some v := by
  simp [jsGet_jsSet]

theorem jsGet_jsSet_ne (m : List (String × α)) {k k' : String} (v : α) (h : k' ≠ k) :
    jsGet (jsSet m k v) k' = jsGet m k' := by
  simp [jsGet_jsSet, h]

-- ===== C9: default container state =====

/-- C9: a container id with no entry in `containerStates` reads as unlocked and
open: `getContainerState` returns `{isLocked: false, isOpen: true}`, hence
`isContainerLocked` is false and `isContainerOpen` is true — exactly the
predicates `cmdOpen`, `cmdClose` and `takeFromContainer` consult, so a
never-initialized container behaves as an unlocked, open one. -/
theorem uninitialized_container_defaults (s : GameState) (c : String)
    (h : jsGet s.containerStates c = none) :
    s.getContainerState c = { isLocked := false, isOpen := true } ∧
    s.isContainerLocked c = false ∧ s.isContainerOpen c = true := by
  simp [GameState.getContainerState, GameState.isContainerLocked,
        GameState.isContainerOpen, h]

theorem uninitialized_container_defaults_witness :
    baseStore.getContainerState "chest" = { isLocked := false, isOpen := true } ∧
    baseStore.isContainerLocked "chest" = false ∧
    baseStore.isContainerOpen "chest" = true :=
  uninitialized_container_defaults baseStore "chest" (by decide)

theorem foldl_exitStates_invariant {β : Type} (f : GameState → β → GameState)
    (h : ∀ s b, (f s b).exitStates = s.exitStates) (l : List β) (s : GameState) :
    (l.foldl f s).exitStates = s.exitStates := by
  induction l generalizing s with
  | nil => rfl
  | cons b l ih => rw [List.foldl_cons, ih, h]

theorem initExitStep_fold (lid : String) (exs : List Exit) (s : GameState) :
    (exs.foldl (initExitStep lid) s).exitStates =
    (exs.map (fun ex => (lid ++ "-" ++ ex.direction,
        (⟨ex.locked || jsTruthy ex.requiredItem⟩ : ExitState)))).foldl
      (fun m p => jsSet m p.1 p.2) s.exitStates := by
  induction exs generalizing s with
  | nil => rfl
  | cons ex exs ih => rw [List.foldl_cons, List.map_cons, List.foldl_cons, ih]; rfl

theorem locations_fold_exitStates (locs : List Location) (s : GameState) :
    ((locs.foldl initLocStep s).exitStates) =
    (locs.flatMap (fun loc => loc.exits.map (fun ex => (loc.id ++ "-" ++ ex.direction,
        (⟨ex.locked || jsTruthy ex.requiredItem⟩ : ExitState))))).foldl
      (fun m p => jsSet m p.1 p.2) s.exitStates := by
  induction locs generalizing s with
  | nil => rfl
  | cons loc locs ih =>
    rw [List.foldl_cons, ih, List.flatMap_cons, List.foldl_append]
    rw [initLocStep, initExitStep_fold]

theorem initUniqueStep_exitStates (s : GameState) (item : UniqueItem) :
    (initUniqueStep s item).exitStates = s.exitStates := by
  unfold initUniqueStep
  repeat' split
  all_goals rfl

theorem initNpcStep_exitStates (s : GameState) (npc : Npc) :
    (initNpcStep s npc).exitStates = s.exitStates := by
  unfold initNpcStep
  cases jsStrOpt npc.location <;> rfl

theorem initFromGame_exitStates (g : Game) :
    (GameState.initFromGame g).exitStates =
      (exitEntries g).foldl (fun m p => jsSet m p.1 p.2) [] := by
  unfold GameState.initFromGame exitEntries
  rw [locations_fold_exitStates]
  rw [foldl_exitStates_invariant initQuestStep (fun _ _ => rfl),
      foldl_exitStates_invariant initNpcStep initNpcStep_exitStates,
      foldl_exitStates_invariant initUniqueStep initUniqueStep_exitStates]

theorem jsGet_foldl_jsSet_untouched (l : List (String × α)) (m : List (String × α))
    (k : String) (hk : k ∉ l.map Prod.fst) :
    jsGet (l.foldl (fun m p => jsSet m p.1 p.2) m) k = jsGet m k := by
  induction l generalizing m with
  | nil => rfl
  | cons p l ih =>
    have hk1 : k ≠ p.1 := by
      intro h
      apply hk
      rw [List.map_cons, h]
      exact List.mem_cons_self _ _
    have hk2 : k ∉ l.map Prod.fst := by
      intro h
      apply hk
      rw [List.map_cons]
      exact List.mem_cons_of_mem _ h
    rw [List.foldl_cons, ih _ hk2]
    exact jsGet_jsSet_ne m p.2 hk1

theorem jsGet_foldl_jsSet_of_mem (l : List (String × α)) (k : String) (v : α)
    (m0 : List (String × α)) (hmem : (k, v) ∈ l)
    (hnodup : (l.map Prod.fst).Nodup) :
    jsGet (l.foldl (fun m p => jsSet m p.1 p.2) m0) k = some v := by
  obtain ⟨l1, l2, rfl⟩ := List.append_of_mem hmem
  rw [List.foldl_append, List.foldl_cons]
  have hk2 : k ∉ l2.map Prod.fst := by
    rw [List.map_append, List.map_cons] at hnodup
    have h2 := hnodup.of_append_right
    exact (List.nodup_cons.mp h2).1
  rw [jsGet_foldl_jsSet_untouched _ _ _ hk2, jsGet_jsSet_self]

/-- C10 (amended): in a freshly constructed State Store, provided the
composite keys `locationId ++ "-" ++ direction` of the declared exits are
pairwise distinct, every declared exit starts locked exactly when its static
`locked` flag is set or it declares a (non-empty) `requiredItem`.  Without
the distinctness proviso a later colliding key overwrites an earlier one
(see the counterexample). -/
theorem exit_initial_lock_state (g : Game) (loc : Location) (ex : Exit)
    (hloc : loc ∈ g.locations) (hex : ex ∈ loc.exits)
    (hnodup : (exitKeys g).Nodup) :
    ((GameState.initFromGame g).isExitLocked loc.id ex.direction =
      (ex.locked || jsTruthy ex.requiredItem)) ∧
    ((GameState.initFromGame g).isExitLocked loc.id ex.direction = true ↔
      (ex.locked = true ∨ jsTruthy ex.requiredItem = true)) := by
  have hmem : (loc.id ++ "-" ++ ex.direction,
      (⟨ex.locked || jsTruthy ex.requiredItem⟩ : ExitState)) ∈ exitEntries g := by
    unfold exitEntries
    exact List.mem_flatMap.mpr ⟨loc, hloc, List.mem_map_of_mem _ hex⟩
  have hget := jsGet_foldl_jsSet_of_mem _ _ _ ([] : List (String × ExitState)) hmem hnodup
  rw [← initFromGame_exitStates] at hget
  constructor
  · simp [GameState.isExitLocked, GameState.getExitState, hget]
  · simp [GameState.isExitLocked, GameState.getExitState, hget, Bool.or_eq_true]

/-- C10 counterexample: the exit ("a", "b-c") is declared `locked: true`, yet
the fresh store reports it unlocked — the later exit ("a-b", "c") overwrote
the shared key "a-b-c". -/
theorem exit_initial_lock_state_cex :
    (GameState.initFromGame collideGame).isExitLocked "a" "b-c" = false ∧
    (collideGame.locations.map (fun l => l.exits.map (fun e => (l.id, e.direction, e.locked))))
      = [[("a", "b-c", true)], [("a-b", "c", false)]] := by
  exact ⟨rfl, rfl⟩

theorem exit_initial_lock_state_witness :
    (GameState.initFromGame plainGame).isExitLocked "room" "north" = true ∧
    (GameState.initFromGame plainGame).isExitLocked "room" "south" = false := by
  have h1 := exit_initial_lock_state plainGame plainLoc plainExitN
    (List.Mem.head _) (List.Mem.head _) (by decide)
  have h2 := exit_initial_lock_state plainGame plainLoc plainExitS
    (List.Mem.head _) (List.Mem.tail _ (List.Mem.head _)) (by decide)
  exact ⟨h1.1.trans (by decide), h2.1.trans (by decide)⟩

-- ===== C1: generic-item transfer =====

theorem find?_append_of_none {α : Type} {p : α → Bool} (l l' : List α)
    (h : l.find? p = none) : (l ++ l').find? p = l'.find? p := by
  rw [List.find?_append, h, Option.none_or]

theorem find?_updFirstStack (itemId : String) (f : Stack → Stack)
    (hf : ∀ st, (f st).itemId = st.itemId) (stks : List Stack) :
    (updFirstStack itemId f stks).find? (fun st => st.itemId = itemId) =
      (stks.find? (fun st => st.itemId = itemId)).map f := by
  induction stks with
  | nil => rfl
  | cons st rest ih =>
    by_cases h : st.itemId = itemId
    · simp [updFirstStack, h, List.find?_cons, hf st]
    · simp [updFirstStack, h, List.find?_cons, ih]

theorem find?_filter_ne (itemId : String) (stks : List Stack) :
    (stks.filter (fun t => t.itemId ≠ itemId)).find? (fun st => st.itemId = itemId) = none := by
  induction stks with
  | nil => rfl
  | cons st rest ih =>
    by_cases h : st.itemId = itemId <;> simp [List.filter_cons, h, List.find?_cons, ih]

theorem resolvePlace_gis_update (s : GameState) (gis : List (String × List Stack))
    (c : String) (pid : Option String) :
    GameState.resolvePlace { s with genericItemStacks := gis } c pid =
      s.resolvePlace c pid := rfl

theorem getGenericItemStack_eq (s : GameState) (c itemId : String) (pid : Option String) :
    s.getGenericItemStack c itemId pid =
      ((jsGet s.genericItemStacks (s.resolvePlace c pid)).getD []).find?
        (fun st => st.itemId = itemId) := by
  unfold GameState.getGenericItemStack
  cases hjs : jsGet s.genericItemStacks (s.resolvePlace c pid) <;> simp [hjs]

theorem addGenericItems_eq (s : GameState) (c itemId : String) (q : Int)
    (pid : Option String) :
    s.addGenericItems c itemId q pid =
      { s with genericItemStacks := jsSet s.genericItemStacks (s.resolvePlace c pid) (addedStacks itemId q ((jsGet s.genericItemStacks (s.resolvePlace c pid)).getD [])) } := by
  unfold GameState.addGenericItems addedStacks
  cases hfind : ((jsGet s.genericItemStacks (s.resolvePlace c pid)).getD []).find?
      (fun st => st.itemId = itemId) <;> simp only [hfind]

theorem removeGenericItems_ok (s : GameState) (c itemId : String) (q : Int)
    (pid : Option String) (stks : List Stack) (st : Stack)
    (hjs : jsGet s.genericItemStacks (s.resolvePlace c pid) = some stks)
    (hfind : stks.find? (fun t => t.itemId = itemId) = some st)
    (hq : ¬ st.quantity < q) :
    s.removeGenericItems c itemId q pid =
      ({ s with genericItemStacks := jsSet s.genericItemStacks (s.resolvePlace c pid) (removedStacks itemId q stks st) }, true) := by
  unfold GameState.removeGenericItems removedStacks
  simp only [hjs, hfind, if_neg hq]

theorem removeGenericItems_fail (s : GameState) (c itemId : String) (q : Int)
    (pid : Option String)
    (h : s.getGenericItemStack c itemId pid = none ∨
      (∃ st, s.getGenericItemStack c itemId pid = some st ∧ st.quantity < q)) :
    s.removeGenericItems c itemId q pid = (s, false) := by
  unfold GameState.removeGenericItems
  unfold GameState.getGenericItemStack at h
  cases hjs : jsGet s.genericItemStacks (s.resolvePlace c pid) with
  | none => simp only [hjs]
  | some stks =>
    simp only [hjs] at h ⊢
    cases hfind : stks.find? (fun t => t.itemId = itemId) with
    | none => simp only [hfind]
    | some st =>
      simp only [hfind] at h ⊢
      rcases h with h | ⟨st', hst', hlt⟩
      · cases h
      · have hst : st' = st := by injection hst'.symm
        subst hst
        simp [hlt]

theorem getGenericItemQuantity_addGenericItems (s : GameState) (c itemId : String)
    (q : Int) (pid : Option String) :
    (s.addGenericItems c itemId q pid).getGenericItemQuantity c itemId pid =
      s.getGenericItemQuantity c itemId pid + q := by
  rw [addGenericItems_eq]
  simp only [GameState.getGenericItemQuantity, getGenericItemStack_eq,
    resolvePlace_gis_update, jsGet_jsSet_self, Option.getD_some]
  unfold addedStacks
  cases hfind : ((jsGet s.genericItemStacks (s.resolvePlace c pid)).getD []).find?
      (fun st => st.itemId = itemId) with
  | none =>
    dsimp only
    rw [find?_append_of_none _ _ hfind]
    simp [List.find?_cons]
  | some st =>
    dsimp only
    rw [find?_updFirstStack itemId (fun t => { t with quantity := t.quantity + q }) (fun _ => rfl), hfind]
    simp

/-- C1 (amended): for every generic-item transfer between two distinct
resolved places: when the source stack holds at least `q`, the call returns
true, exactly `q` leaves the source and exactly `q` arrives at the
destination (so the combined source-plus-destination quantity is conserved);
when the source holds fewer than `q` or has no stack, the call returns false
and the whole state — in particular every stack table — is unchanged (the
failed removal never performs the addition); and a removal that empties the
source stack removes it from the source place's stack list.  (A transfer of
quantity 0 to a place without a stack of that kind does create a lingering
zero-quantity stack at the destination — see the counterexample — so pruning
holds for removal, not for addition.) -/
theorem transfer_conservation (s : GameState) (fromC toC itemId : String) (q : Int)
    (pid : Option String) :
    (∀ st, s.resolvePlace fromC pid ≠ s.resolvePlace toC pid →
      s.getGenericItemStack fromC itemId pid = some st → q ≤ st.quantity →
      (s.transferGenericItems fromC toC itemId q pid).2 = true ∧
      (s.transferGenericItems fromC toC itemId q pid).1.getGenericItemQuantity fromC itemId pid
        = st.quantity - q ∧
      (s.transferGenericItems fromC toC itemId q pid).1.getGenericItemQuantity toC itemId pid
        = s.getGenericItemQuantity toC itemId pid + q ∧
      (s.transferGenericItems fromC toC itemId q pid).1.getGenericItemQuantity fromC itemId pid
        + (s.transferGenericItems fromC toC itemId q pid).1.getGenericItemQuantity toC itemId pid
        = s.getGenericItemQuantity fromC itemId pid
          + s.getGenericItemQuantity toC itemId pid) ∧
    ((s.getGenericItemStack fromC itemId pid = none ∨
      (∃ st, s.getGenericItemStack fromC itemId pid = some st ∧ st.quantity < q)) →
      (s.transferGenericItems fromC toC itemId q pid).2 = false ∧
      (s.transferGenericItems fromC toC itemId q pid).1 = s) ∧
    (∀ st, s.resolvePlace fromC pid ≠ s.resolvePlace toC pid →
      s.getGenericItemStack fromC itemId pid = some st → st.quantity = q →
      (s.transferGenericItems fromC toC itemId q pid).1.getGenericItemStack fromC itemId pid
        = none) := by
  have hremok : ∀ st, s.getGenericItemStack fromC itemId pid = some st → ¬ st.quantity < q →
      s.transferGenericItems fromC toC itemId q pid =
        (({ s with genericItemStacks := jsSet s.genericItemStacks (s.resolvePlace fromC pid) (removedStacks itemId q ((jsGet s.genericItemStacks (s.resolvePlace fromC pid)).getD []) st) } : GameState).addGenericItems toC itemId q pid, true) := by
    intro st hstack hq
    rw [getGenericItemStack_eq] at hstack
    cases hjs : jsGet s.genericItemStacks (s.resolvePlace fromC pid) with
    | none => rw [hjs] at hstack; cases hstack
    | some stks =>
      rw [hjs] at hstack
      rw [Option.getD_some] at hstack
      have hrem := removeGenericItems_ok s fromC itemId q pid stks st hjs hstack hq
      unfold GameState.transferGenericItems
      rw [hrem]
      simp only [hjs, Option.getD_some]
  refine ⟨?_, ?_, ?_⟩
  · intro st hne hstack hq
    have hq' : ¬ st.quantity < q := not_lt.mpr hq
    have htr := hremok st hstack hq'
    rw [getGenericItemStack_eq] at hstack
    set L := (jsGet s.genericItemStacks (s.resolvePlace fromC pid)).getD [] with hL
    set s1 : GameState := { s with genericItemStacks := jsSet s.genericItemStacks (s.resolvePlace fromC pid) (removedStacks itemId q L st) } with hs1
    have hsrc1 : s1.getGenericItemQuantity fromC itemId pid = st.quantity - q := by
      rw [hs1]
      simp only [GameState.getGenericItemQuantity, getGenericItemStack_eq,
        resolvePlace_gis_update, jsGet_jsSet_self, Option.getD_some]
      unfold removedStacks
      by_cases h0 : st.quantity - q = 0
      · rw [if_pos h0, find?_filter_ne, h0]
      · rw [if_neg h0, find?_updFirstStack itemId (fun t => { t with quantity := t.quantity - q }) (fun _ => rfl), hstack]
        simp
    have hdst1 : s1.getGenericItemQuantity toC itemId pid =
        s.getGenericItemQuantity toC itemId pid := by
      rw [hs1]
      simp only [GameState.getGenericItemQuantity, getGenericItemStack_eq,
        resolvePlace_gis_update]
      rw [jsGet_jsSet_ne _ _ (Ne.symm hne)]
    have hsrc2 : (s1.addGenericItems toC itemId q pid).getGenericItemQuantity fromC itemId pid
        = s1.getGenericItemQuantity fromC itemId pid := by
      rw [addGenericItems_eq]
      simp only [GameState.getGenericItemQuantity, getGenericItemStack_eq,
        resolvePlace_gis_update]
      rw [show GameState.resolvePlace s1 fromC pid = s.resolvePlace fromC pid from by rw [hs1]; rfl] at *
      rw [show GameState.resolvePlace s1 toC pid = s.resolvePlace toC pid from by rw [hs1]; rfl] at *
      rw [jsGet_jsSet_ne _ _ hne]
    have hdst2 := getGenericItemQuantity_addGenericItems s1 toC itemId q pid
    have hrp1 : s1.resolvePlace toC pid = s.resolvePlace toC pid := by
      rw [hs1, resolvePlace_gis_update]
    have hsrcq : s.getGenericItemQuantity fromC itemId pid = st.quantity := by
      simp only [GameState.getGenericItemQuantity, getGenericItemStack_eq, ← hL, hstack]
    refine ⟨by rw [htr], ?_, ?_, ?_⟩
    · rw [htr]; exact hsrc2.trans hsrc1
    · rw [htr]; rw [hdst2, hdst1]
    · rw [htr]; rw [hdst2, hdst1, hsrc2.trans hsrc1, hsrcq]; ring
  · intro h
    have hrem := removeGenericItems_fail s fromC itemId q pid h
    unfold GameState.transferGenericItems
    rw [hrem]
    exact ⟨rfl, rfl⟩
  · intro st hne hstack hq0
    have hq' : ¬ st.quantity < q := by rw [hq0]; exact lt_irrefl q
    have htr := hremok st hstack hq'
    have h0 : st.quantity - q = 0 := by rw [hq0]; ring
    rw [htr, addGenericItems_eq]
    simp only [getGenericItemStack_eq, resolvePlace_gis_update]
    rw [jsGet_jsSet_ne _ _ hne, jsGet_jsSet_self, Option.getD_some]
    unfold removedStacks
    rw [if_pos h0, find?_filter_ne]

/-- C1 counterexample: a transfer of quantity 0 from a place holding a stack
to a place without one succeeds and leaves a zero-quantity stack in the
destination's stack list, contradicting "whenever a stack's quantity reaches
0 it is removed from that place's stack list". -/
theorem transfer_conservation_cex :
    ((c1Store.transferGenericItems "chest" "floor" "gold-coin" 0 none).2 = true) ∧
    (jsGet (c1Store.transferGenericItems "chest" "floor" "gold-coin" 0 none).1.genericItemStacks
        "floor" = some [⟨"gold-coin", 0⟩]) := by decide

theorem transfer_conservation_witness :
    (c1Store.transferGenericItems "chest" "inventory" "gold-coin" 3 none).2 = true ∧
    (c1Store.transferGenericItems "chest" "inventory" "gold-coin" 3 none).1.getGenericItemQuantity
      "chest" "gold-coin" none = 2 ∧
    (c1Store.transferGenericItems "chest" "inventory" "gold-coin" 3 none).1.getGenericItemQuantity
      "inventory" "gold-coin" none = 3 := by
  have h := (transfer_conservation c1Store "chest" "inventory" "gold-coin" 3 none).1
    ⟨"gold-coin", 5⟩ (by decide) (by decide) (by decide)
  exact ⟨h.1, h.2.1.trans (by decide), h.2.2.1.trans (by decide)⟩

-- ===== C8: snapshot round-trip =====

/-- C8 (amended): serializing a State Store and loading the snapshot through
the constructor reproduces the store exactly — every field, in particular
`uniqueItemLocations`, `genericItemStacks`, `containerStates`, `exitStates`,
`questStates`, `flags`, `activePlayerId` and every per-player record —
provided `activePlayerId` is not the empty string (the load branch computes
`existingState.activePlayerId || null`, which collapses the JS-falsy `""` to
null; see the counterexample). -/
theorem snapshot_roundtrip (s : GameState) (now : String) (nowMs : Nat)
    (h : s.activePlayerId ≠ some "") :
    GameState.ofSnapshot (s.toJSON now) nowMs = s := by
  have hap : jsStrOpt s.activePlayerId = s.activePlayerId := by
    cases ha : s.activePlayerId with
    | none => rfl
    | some a =>
      have hne : a ≠ "" := fun he => h (by rw [ha, he])
      simp [jsStrOpt, hne]
  unfold GameState.ofSnapshot GameState.toJSON
  simp [jsTruthy, hap]

/-- C8 counterexample: a store whose `activePlayerId` is the empty string
round-trips to one with `activePlayerId` null — the contents are not
reproduced identically. -/
theorem snapshot_roundtrip_cex :
    (GameState.ofSnapshot (c8Store.toJSON "t") 0).activePlayerId = none ∧
    c8Store.activePlayerId = some "" := by decide

theorem snapshot_roundtrip_witness :
    GameState.ofSnapshot (baseStore.toJSON "2026-01-01T00:00:00Z") 0 = baseStore :=
  snapshot_roundtrip baseStore "2026-01-01T00:00:00Z" 0 (by decide)

theorem countSpaces_append (a b : String) :
    countSpaces (a ++ b) = countSpaces a + countSpaces b := by
  unfold countSpaces
  rw [String.data_append, List.count_append]

/-- Every synonym in the verb table contains at most one space, so no
three-token join (which contains at least two separator spaces) ever
matches. -/
theorem normalizeVerb_two_spaces (w : String) (h : 2 ≤ countSpaces w) :
    normalizeVerb w = none := by
  unfold normalizeVerb
  cases hf : verbSynonyms.find? (fun p => p.2.contains w) with
  | none => rfl
  | some p =>
    exfalso
    have hp := List.find?_some hf
    have hmem := List.mem_of_find?_eq_some hf
    have hw : w ∈ p.2 := by simpa using hp
    have hall : verbSynonyms.all (fun pr => pr.2.all (fun syn => decide (countSpaces syn ≤ 1)))
        = true := by decide
    have h1 := List.all_eq_true.mp hall p hmem
    have h2 := List.all_eq_true.mp h1 w hw
    simp at h2
    omega

theorem countSpaces_three_join (t0 t1 t2 : String) :
    2 ≤ countSpaces (t0 ++ " " ++ t1 ++ " " ++ t2) := by
  simp only [countSpaces_append]
  have hsp : countSpaces " " = 1 := by decide
  omega

/-- C3: the source's verb resolution (2-token, then 3-token, then 1-token
attempt order) computes exactly the spec's longest-match-first resolution
(3-token, then 2-token, then 1-token): since no synonym holds two spaces, a
3-token lookup never succeeds, so the two orders agree on every token list —
multi-word synonyms like "pick up" still beat the bare first token because
the 2-token attempt runs before the 1-token one.  When no lookup succeeds,
`matchPattern` fails with the unknown-word error naming the first token. -/
theorem verb_resolution (tokens : List String) :
    specResolveVerb tokens = codeResolveVerb tokens ∧
    (∀ t0 rest, tokens = t0 :: rest → codeResolveVerb tokens = none →
      matchPattern tokens = PatternResult.failed ("I don't know the word \"" ++ t0 ++ "\".")) := by
  constructor
  · match tokens with
    | [] => rfl
    | [t0] => rfl
    | [t0, t1] =>
      cases h2 : normalizeVerb (t0 ++ " " ++ t1) <;>
        simp [specResolveVerb, codeResolveVerb, h2]
    | t0 :: t1 :: t2 :: rest =>
      have h3 : normalizeVerb (t0 ++ " " ++ t1 ++ " " ++ t2) = none :=
        normalizeVerb_two_spaces _ (countSpaces_three_join t0 t1 t2)
      cases h2 : normalizeVerb (t0 ++ " " ++ t1) <;>
        simp [specResolveVerb, codeResolveVerb, h2, h3]
  · intro t0 rest heq hnone
    subst heq
    simp only [matchPattern, hnone]

theorem verb_resolution_witness :
    specResolveVerb ["pick", "up", "rusty", "key"] = codeResolveVerb ["pick", "up", "rusty", "key"] ∧
    codeResolveVerb ["pick", "up", "rusty", "key"] = some ("TAKE", ["rusty", "key"]) ∧
    matchPattern ["xyzzy", "foo"] = PatternResult.failed ("I don't know the word \"xyzzy\".") :=
  ⟨(verb_resolution ["pick", "up", "rusty", "key"]).1, by decide,
   (verb_resolution ["xyzzy", "foo"]).2 "xyzzy" ["foo"] rfl (by decide)⟩

-- ===== C6: consumes-turn flag and parse rejection =====

/-- C6: the consumes-turn boolean returned by `executeCommand` is computed
from the verb alone — false exactly for the informational verbs LOOK,
INVENTORY, EXAMINE, QUEST, QUESTS, true for every other verb regardless of
what the dispatched handler does; and every parse rejection (empty input,
article-only input, unknown verb) returns the error text verbatim with the
State Store untouched and no turn consumed. -/
theorem turn_flag_and_parse_rejection (g : Game) (s : GameState) (p : Parsed)
    (input : String) :
    ((executeCommand g s p).2.2 = !(nonTurnCommands.contains p.verb)) ∧
    (jsTrim input = "" → parseCommand g s input = (s, "Please enter a command.", false)) ∧
    (jsTrim input ≠ "" → tokenize (jsTrim input) = [] →
      parseCommand g s input = (s, "I don't understand that.", false)) ∧
    (∀ t0 rest, jsTrim input ≠ "" → tokenize (jsTrim input) = t0 :: rest →
      codeResolveVerb (t0 :: rest) = none →
      parseCommand g s input = (s, "I don't know the word \"" ++ t0 ++ "\".", false)) := by
  refine ⟨rfl, ?_, ?_, ?_⟩
  · intro h
    simp [parseCommand, h]
  · intro h1 h2
    simp [parseCommand, h1, h2]
  · intro t0 rest h1 h2 h3
    simp [parseCommand, h1, h2, matchPattern, h3]

theorem turn_flag_and_parse_rejection_witness :
    (executeCommand plainGame baseStore
      { verb := "LOOK", quantity := none, directObject := none, indirectObject := none,
        preposition := none }).2.2 = false ∧
    (executeCommand plainGame baseStore
      { verb := "GO", quantity := none, directObject := some "north", indirectObject := none,
        preposition := none }).2.2 = true ∧
    parseCommand plainGame baseStore "   " = (baseStore, "Please enter a command.", false) ∧
    parseCommand plainGame baseStore "the" = (baseStore, "I don't understand that.", false) ∧
    parseCommand plainGame baseStore "xyzzy foo" =
      (baseStore, "I don't know the word \"xyzzy\".", false) := by
  refine ⟨?_, ?_, ?_, ?_, ?_⟩
  · exact ((turn_flag_and_parse_rejection plainGame baseStore
      { verb := "LOOK", quantity := none, directObject := none, indirectObject := none,
        preposition := none } "").1).trans (by decide)
  · exact ((turn_flag_and_parse_rejection plainGame baseStore
      { verb := "GO", quantity := none, directObject := some "north", indirectObject := none,
        preposition := none } "").1).trans (by decide)
  · exact (turn_flag_and_parse_rejection plainGame baseStore
      { verb := "LOOK", quantity := none, directObject := none, indirectObject := none,
        preposition := none } "   ").2.1 (by decide)
  · exact (turn_flag_and_parse_rejection plainGame baseStore
      { verb := "LOOK", quantity := none, directObject := none, indirectObject := none,
        preposition := none } "the").2.2.1 (by decide) (by decide)
  · exact (turn_flag_and_parse_rejection plainGame baseStore
      { verb := "LOOK", quantity := none, directObject := none, indirectObject := none,
        preposition := none } "xyzzy foo").2.2.2 "xyzzy" ["foo"] (by decide) (by decide)
      (by decide)

-- ===== C4: all-required quest completion =====

theorem rewardStep_flags (s : GameState) (itemId : String) :
    (rewardStep s itemId).flags = s.flags := rfl

theorem rewardStep_questStates (s : GameState) (itemId : String) :
    (rewardStep s itemId).questStates = s.questStates := rfl

theorem foldl_rewardStep_flags (l : List String) (s : GameState) :
    (l.foldl rewardStep s).flags = s.flags := by
  induction l generalizing s with
  | nil => rfl
  | cons a l ih => rw [List.foldl_cons, ih, rewardStep_flags]

theorem foldl_rewardStep_questStates (l : List String) (s : GameState) :
    (l.foldl rewardStep s).questStates = s.questStates := by
  induction l generalizing s with
  | nil => rfl
  | cons a l ih => rw [List.foldl_cons, ih, rewardStep_questStates]

theorem setQuestState_flags (s : GameState) (qid st : String) :
    (s.setQuestState qid st).flags = s.flags := rfl

theorem setQuestState_questStates (s : GameState) (qid st : String) :
    (s.setQuestState qid st).questStates = jsSet s.questStates qid st := rfl

theorem addScore_flags (s : GameState) (points : Int) (pid : Option String) :
    (s.addScore points pid).flags = s.flags := by
  cases h : jsGet s.players (optStr (jsOrStr pid s.activePlayerId)) with
  | none => simp [GameState.addScore, h]
  | some pl => simp [GameState.addScore, h]

theorem addScore_questStates (s : GameState) (points : Int) (pid : Option String) :
    (s.addScore points pid).questStates = s.questStates := by
  cases h : jsGet s.players (optStr (jsOrStr pid s.activePlayerId)) with
  | none => simp [GameState.addScore, h]
  | some pl => simp [GameState.addScore, h]

theorem questStep_flags (acc : GameState × List String) (quest : Quest) :
    (questStep acc quest).1.flags = acc.1.flags := by
  by_cases h1 : acc.1.getQuestState quest.id ≠ some "active"
  · simp [questStep, h1]
  · by_cases h2 : quest.isComplete acc.1 = true
    · simp only [questStep, h1, h2, if_true, if_false, ite_false, ite_true]
      rw [foldl_rewardStep_flags]
      by_cases h3 : quest.scoreReward > 0 <;>
        simp [h3, addScore_flags, setQuestState_flags]
    · simp [questStep, h1, h2]

theorem questStep_questState_ne (acc : GameState × List String) (quest : Quest)
    (qid : String) (h : quest.id ≠ qid) :
    jsGet (questStep acc quest).1.questStates qid = jsGet acc.1.questStates qid := by
  have hset : ∀ s : GameState, jsGet (s.setQuestState quest.id "completed").questStates qid
      = jsGet s.questStates qid := by
    intro s
    rw [setQuestState_questStates]
    exact jsGet_jsSet_ne _ _ (fun he => h he.symm)
  by_cases h1 : acc.1.getQuestState quest.id ≠ some "active"
  · simp [questStep, h1]
  · by_cases h2 : quest.isComplete acc.1 = true
    · simp only [questStep, h1, h2, if_true, if_false, ite_false, ite_true]
      rw [foldl_rewardStep_questStates]
      by_cases h3 : quest.scoreReward > 0 <;>
        simp [h3, addScore_questStates, hset]
    · simp [questStep, h1, h2]

theorem foldl_questStep_flags (l : List Quest) (acc : GameState × List String) :
    (l.foldl questStep acc).1.flags = acc.1.flags := by
  induction l generalizing acc with
  | nil => rfl
  | cons q l ih => rw [List.foldl_cons, ih, questStep_flags]

theorem foldl_questStep_questState_ne (l : List Quest) (acc : GameState × List String)
    (qid : String) (h : ∀ q ∈ l, q.id ≠ qid) :
    jsGet (l.foldl questStep acc).1.questStates qid = jsGet acc.1.questStates qid := by
  induction l generalizing acc with
  | nil => rfl
  | cons q l ih =>
    rw [List.foldl_cons, ih (questStep acc q) (fun q' hq' => h q' (List.mem_cons_of_mem _ hq')),
        questStep_questState_ne _ _ _ (h q (List.mem_cons_self _ _))]

theorem flagTruthy_congr {s1 s2 : GameState} (h : s1.flags = s2.flags) (k : String) :
    s1.flagTruthy k = s2.flagTruthy k := by
  unfold GameState.flagTruthy GameState.getFlag
  rw [h]

/-- C4 (amended): for every quest with `requireAllObjectives: true`, no
custom completion predicate and a non-empty objective list, among quests
with pairwise-distinct ids: when the quest is `active`, the per-turn check
moves it to `completed` exactly when every required objective's flag
`quest-{questId}-objective-{objectiveId}` is truthy in the global flags; a
quest not in state `active` keeps its state.  (A quest with an *empty*
objective list is never completed even though the all-required criterion is
vacuously satisfied — see the counterexample — and a custom
`completionCheck` replaces the flag criterion entirely.) -/
theorem quest_all_required_completion (g : Game) (s : GameState) (q : Quest)
    (hmem : q ∈ g.quests)
    (hnodup : (g.quests.map Quest.id).Nodup)
    (hall : q.requireAllObjectives = true)
    (hcc : q.completionCheck = none)
    (hobj : q.objectives ≠ []) :
    ((s.getQuestState q.id = some "active") →
      (((checkQuestProgress g s).1.getQuestState q.id = some "completed") ↔
        (q.objectives.all (fun o => !o.required ||
          s.flagTruthy ("quest-" ++ q.id ++ "-objective-" ++ o.id)) = true))) ∧
    ((s.getQuestState q.id ≠ some "active") →
      (checkQuestProgress g s).1.getQuestState q.id = s.getQuestState q.id) := by
  obtain ⟨l1, l2, hsplit⟩ := List.append_of_mem hmem
  have hnodup' := hnodup
  rw [hsplit, List.map_append, List.map_cons] at hnodup'
  have hq1 : ∀ q' ∈ l1, q'.id ≠ q.id := by
    intro q' hq' he
    have hd := (List.nodup_append.mp hnodup').2.2
    exact hd (a := q'.id) (List.mem_map_of_mem _ hq') (he ▸ List.mem_cons_self _ _)
  have hq2 : ∀ q' ∈ l2, q'.id ≠ q.id := by
    intro q' hq' he
    have hcons := (List.nodup_append.mp hnodup').2.1
    exact (List.nodup_cons.mp hcons).1 (he ▸ List.mem_map_of_mem _ hq')
  have hfold : (checkQuestProgress g s).1 =
      (l2.foldl questStep (questStep (l1.foldl questStep (s, [])) q)).1 := by
    show (g.quests.foldl questStep (s, [])).1 = _
    rw [hsplit, List.foldl_append, List.foldl_cons]
  set acc1 := l1.foldl questStep (s, []) with hacc1
  have hflags1 : acc1.1.flags = s.flags := foldl_questStep_flags l1 (s, [])
  have hqs1 : acc1.1.getQuestState q.id = s.getQuestState q.id :=
    foldl_questStep_questState_ne l1 (s, []) q.id hq1
  constructor
  · intro hactive
    have hact1 : acc1.1.getQuestState q.id = some "active" := by rw [hqs1]; exact hactive
    have hcomp : q.isComplete acc1.1 = q.objectives.all (fun o => !o.required ||
        s.flagTruthy ("quest-" ++ q.id ++ "-objective-" ++ o.id)) := by
      unfold Quest.isComplete
      rw [hact1, hcc, hall]
      have hfun : (fun o : Objective => !o.required ||
          acc1.1.flagTruthy ("quest-" ++ q.id ++ "-objective-" ++ o.id)) =
          (fun o : Objective => !o.required ||
          s.flagTruthy ("quest-" ++ q.id ++ "-objective-" ++ o.id)) := by
        funext o
        rw [flagTruthy_congr hflags1]
      simp [List.isEmpty_iff, hobj, hfun]
    by_cases hC : q.objectives.all (fun o => !o.required ||
        s.flagTruthy ("quest-" ++ q.id ++ "-objective-" ++ o.id)) = true
    · have hstep : (questStep acc1 q).1.getQuestState q.id = some "completed" := by
        simp only [questStep]
        rw [hact1]
        simp only [ne_eq, not_true_eq_false, if_false, ite_false, hcomp, hC, if_true, ite_true]
        show (List.foldl rewardStep _ q.itemRewards).getQuestState q.id = some "completed"
        unfold GameState.getQuestState
        rw [foldl_rewardStep_questStates]
        by_cases h3 : q.scoreReward > 0 <;>
          simp [h3, addScore_questStates, setQuestState_questStates, jsGet_jsSet_self]
      have hfinal : (checkQuestProgress g s).1.getQuestState q.id = some "completed" := by
        rw [hfold]
        show jsGet (l2.foldl questStep (questStep acc1 q)).1.questStates q.id = some "completed"
        rw [foldl_questStep_questState_ne l2 _ q.id hq2]
        exact hstep
      rw [hfinal]
      simp [hC]
    · have hstep : questStep acc1 q = acc1 := by
        simp only [questStep]
        rw [hact1]
        simp [hcomp, hC]
      have hfinal : (checkQuestProgress g s).1.getQuestState q.id = some "active" := by
        rw [hfold, hstep]
        show jsGet (l2.foldl questStep acc1).1.questStates q.id = some "active"
        rw [foldl_questStep_questState_ne l2 _ q.id hq2]
        exact hact1
      rw [hfinal]
      simp [hC]
  · intro hnact
    have hnact1 : acc1.1.getQuestState q.id ≠ some "active" := by rw [hqs1]; exact hnact
    have hstep : questStep acc1 q = acc1 := by
      simp only [questStep]
      simp [hnact1]
    rw [hfold, hstep]
    show jsGet (l2.foldl questStep acc1).1.questStates q.id = _
    rw [foldl_questStep_questState_ne l2 _ q.id hq2]
    exact hqs1

/-- C4 counterexample: an active quest with `requireAllObjectives: true` and
an empty objective list vacuously satisfies "every required objective's flag
is set", yet the per-turn check leaves it `active` (`isComplete` returns
false for an empty objective list). -/
theorem quest_all_required_completion_cex :
    ((checkQuestProgress c4Game c4State).1.getQuestState "empty-quest" = some "active") ∧
    (c4State.getQuestState "empty-quest" = some "active") ∧
    ((c4Game.quests.map (fun q => q.objectives.all (fun o => !o.required ||
      c4State.flagTruthy ("quest-" ++ q.id ++ "-objective-" ++ o.id)))) = [true]) := by
  refine ⟨by decide, by decide, by decide⟩

theorem quest_all_required_completion_witness :
    (((checkQuestProgress c4bGame c4bState).1.getQuestState "two-obj" = some "completed") ↔
      (c4bQuest.objectives.all (fun o => !o.required ||
        c4bState.flagTruthy ("quest-" ++ c4bQuest.id ++ "-objective-" ++ o.id)) = true)) ∧
    (c4bQuest.objectives.all (fun o => !o.required ||
      c4bState.flagTruthy ("quest-" ++ c4bQuest.id ++ "-objective-" ++ o.id)) = false) := by
  constructor
  · exact (quest_all_required_completion c4bGame c4bState c4bQuest (List.Mem.head _)
      (by decide) rfl rfl (by decide)).1 (by decide)
  · decide

-- ===== C7: unlocking with a non-matching key =====

/-- C7: for a locked container that declares a `requiredKey`, an UNLOCK with
an explicit "with <key>" clause that matches only inventory items whose id
is not the required key returns "None of your keys fit the lock." and
changes nothing — the container stays locked. -/
theorem wrong_key_unlock (g : Game) (s : GameState) (objectName kn prepw : String)
    (it : UniqueItem) (rk : String)
    (hobj : objectName ≠ "")
    (hfind : findUniqueItemAtLocation g s objectName = some it)
    (hcont : it.isContainer = true)
    (hlocked : s.isContainerLocked it.id = true)
    (hrk : jsStrOpt it.requiredKey = some rk)
    (hkn : kn ≠ "") (hprep : prepw ≠ "")
    (hkeys : matchingInventoryKeys g s kn ≠ [])
    (hwrong : ∀ k ∈ matchingInventoryKeys g s kn, k.id ≠ rk) :
    cmdUnlock g s (some objectName) (some kn) (some prepw) =
      (s, "None of your keys fit the lock.") ∧
    (cmdUnlock g s (some objectName) (some kn) (some prepw)).1.isContainerLocked it.id
      = true := by
  have h1 : jsStrOpt (some objectName) = some objectName := by simp [jsStrOpt, hobj]
  have h2 : jsTruthy (some kn) = true := by simp [jsTruthy, hkn]
  have h3 : jsTruthy (some prepw) = true := by simp [jsTruthy, hprep]
  have hmain : cmdUnlock g s (some objectName) (some kn) (some prepw) =
      (s, "None of your keys fit the lock.") := by
    unfold cmdUnlock
    rw [h1]
    simp only [hfind, hcont, if_true, ite_true]
    rw [hlocked]
    simp only [Bool.not_true, if_false, ite_false, h2, h3, Bool.and_self, if_true, ite_true,
      Option.getD_some]
    cases hkl : matchingInventoryKeys g s kn with
    | nil => exact absurd hkl hkeys
    | cons k0 ks =>
      rw [hrk]
      have hnone : (k0 :: ks).find? (fun k => k.id = rk) = none := by
        rw [List.find?_eq_none]
        intro k hk
        simp [hwrong k (hkl ▸ hk)]
      simp [hnone]
  exact ⟨hmain, by rw [hmain]; exact hlocked⟩

theorem wrong_key_unlock_witness :
    cmdUnlock c7Game c7State (some "chest") (some "gold coin") (some "with") =
      (c7State, "None of your keys fit the lock.") ∧
    (cmdUnlock c7Game c7State (some "chest") (some "gold coin") (some "with")).1.isContainerLocked
      "chest" = true := by
  have he : matchingInventoryKeys c7Game c7State "gold coin" = [c7Coin] := rfl
  exact wrong_key_unlock c7Game c7State "chest" "gold coin" "with" c7Chest "iron-key"
    (by decide) rfl rfl (by decide) rfl (by decide) (by decide)
    (he ▸ List.cons_ne_nil _ _)
    (by
      intro k hk
      rw [he] at hk
      have hkk := List.mem_singleton.mp hk
      subst hkk
      decide)

/-- C5 counterexample: "take 5 gold coin" with only 3 at the location does
not error — it silently transfers the whole stack (3) to the inventory and
reports "You take 3 gold coins."; only the container branch and DROP return
an insufficient-quantity error. -/
theorem quantity_handling_cex :
    cmdTake c5Game c5State (some "gold coin") none none (some (Quantity.num 5)) =
      ({ c5State with genericItemStacks :=
          [("room", []), ("inventory-p1", [⟨"gold-coin", 3⟩])] },
       "You take 3 gold coins.") ∧
    c5State.getGenericItemQuantity "room" "gold-coin" none = 3 := by
  constructor
  · rfl
  · rfl

/-- C5 (amended): when no quantity is given, TAKE and DROP of a generic item
default to the whole stack (`ALL`); a DROP or container-TAKE requesting more
than the available quantity returns an error naming the actual available
quantity and performs no transfer; a plain TAKE of a location stack instead
silently caps the requested quantity at the available amount. -/
theorem quantity_handling (g : Game) (s : GameState) (objectName containerName : String)
    (item : GenericItem) (st : Stack) (container : UniqueItem) (n : Int) :
    ((findUniqueItemAtLocation g s containerName = some container) →
      container.isContainer = true →
      s.isContainerOpen container.id = true →
      findStackByName g objectName (s.getGenericItemStacksAt container.id none)
        = some (item, st) →
      n > st.quantity →
      takeFromContainer g s objectName containerName (some (Quantity.num n)) =
        (s, "There are only " ++ toString st.quantity ++ " " ++
            item.getDisplayName st.quantity ++ " in the " ++ container.name ++ ".")) ∧
    (objectName ≠ "" →
      findUniqueItemInInventory g s objectName = none →
      findGenericItemInInventory g s objectName = some (item, st) →
      n > st.quantity →
      cmdDrop g s (some objectName) (some (Quantity.num n)) =
        (s, "You only have " ++ toString st.quantity ++ " " ++
            item.getDisplayName st.quantity ++ ".")) ∧
    ((findUniqueItemAtLocation g s containerName = some container) →
      container.isContainer = true →
      s.isContainerOpen container.id = true →
      findStackByName g objectName (s.getGenericItemStacksAt container.id none)
        = some (item, st) →
      takeFromContainer g s objectName containerName none =
        takeFromContainer g s objectName containerName (some (Quantity.num st.quantity))) ∧
    (objectName ≠ "" →
      findUniqueItemAtLocation g s objectName = none →
      findGenericItemAtLocation g s objectName = some (item, st) →
      cmdTake g s (some objectName) none none none =
        cmdTake g s (some objectName) none none (some (Quantity.num st.quantity))) ∧
    (objectName ≠ "" →
      findUniqueItemInInventory g s objectName = none →
      findGenericItemInInventory g s objectName = some (item, st) →
      cmdDrop g s (some objectName) none =
        cmdDrop g s (some objectName) (some (Quantity.num st.quantity))) ∧
    (objectName ≠ "" →
      findUniqueItemAtLocation g s objectName = none →
      findGenericItemAtLocation g s objectName = some (item, st) →
      n > st.quantity →
      cmdTake g s (some objectName) none none (some (Quantity.num n)) =
        cmdTake g s (some objectName) none none (some (Quantity.num st.quantity))) := by
  refine ⟨?_, ?_, ?_, ?_, ?_, ?_⟩
  · intro hfind hcont hopen hstack hgt
    unfold takeFromContainer
    rw [hfind]
    simp only [hcont, Bool.not_true, if_false, ite_false, hopen, ite_true, if_true]
    rw [hstack]
    simp [hgt]
  · intro hobj hinv hstack hgt
    have h1 : jsStrOpt (some objectName) = some objectName := by simp [jsStrOpt, hobj]
    unfold cmdDrop
    rw [h1]
    simp only [hinv, hstack]
    simp [hgt]
  · intro hfind hcont hopen hstack
    unfold takeFromContainer
    rw [hfind]
    simp only [hcont, Bool.not_true, if_false, ite_false, hopen, ite_true, if_true]
    rw [hstack]
    simp [lt_irrefl]
  · intro hobj hfindu hstack
    have h1 : jsStrOpt (some objectName) = some objectName := by simp [jsStrOpt, hobj]
    unfold cmdTake
    rw [h1]
    simp only [jsTruthy, Bool.and_self, if_false, ite_false, hfindu, hstack]
    simp [min_self]
  · intro hobj hinv hstack
    have h1 : jsStrOpt (some objectName) = some objectName := by simp [jsStrOpt, hobj]
    unfold cmdDrop
    rw [h1]
    simp only [hinv, hstack]
    simp [min_self, lt_irrefl]
  · intro hobj hfindu hstack hgt
    have h1 : jsStrOpt (some objectName) = some objectName := by simp [jsStrOpt, hobj]
    unfold cmdTake
    rw [h1]
    simp only [jsTruthy, Bool.and_self, if_false, ite_false, hfindu, hstack]
    have : min n st.quantity = st.quantity := min_eq_right (le_of_lt hgt)
    simp [this, min_self]

theorem quantity_handling_witness :
    takeFromContainer c5bGame c5bState "gold coin" "big chest" (some (Quantity.num 5)) =
      (c5bState, "There are only 3 gold coins in the big chest.") ∧
    cmdDrop c5bGame c5bState (some "gold coin") (some (Quantity.num 5)) =
      (c5bState, "You only have 2 gold coins.") ∧
    takeFromContainer c5bGame c5bState "gold coin" "big chest" none =
      takeFromContainer c5bGame c5bState "gold coin" "big chest" (some (Quantity.num 3)) := by
  refine ⟨?_, ?_, ?_⟩
  · exact ((quantity_handling c5bGame c5bState "gold coin" "big chest" c5Coin
      ⟨"gold-coin", 3⟩ c5Chest 5).1 rfl rfl (by decide) rfl (by decide)).trans (by decide)
  · exact ((quantity_handling c5bGame c5bState "gold coin" "big chest" c5Coin
      ⟨"gold-coin", 2⟩ c5Chest 5).2.1 (by decide) rfl rfl (by decide)).trans (by decide)
  · exact (quantity_handling c5bGame c5bState "gold coin" "big chest" c5Coin
      ⟨"gold-coin", 3⟩ c5Chest 5).2.2.1 rfl rfl (by decide) rfl

-- ===== C2: GO movement =====

theorem unlockExit_getActivePlayer (s : GameState) (a b : String) :
    (s.unlockExit a b).getActivePlayer = s.getActivePlayer := rfl

theorem setFlag_players (s : GameState) (k : String) (v : Bool) :
    (s.setFlag k v).players = s.players := rfl

theorem setFlag_activePlayerId (s : GameState) (k : String) (v : Bool) :
    (s.setFlag k v).activePlayerId = s.activePlayerId := rfl

theorem setFlag_exitStates (s : GameState) (k : String) (v : Bool) :
    (s.setFlag k v).exitStates = s.exitStates := rfl

theorem checkQuestDiscovery_fst (g : Game) (s : GameState) (lid : String) :
    (checkQuestDiscovery g s lid).1.players = s.players ∧
    (checkQuestDiscovery g s lid).1.activePlayerId = s.activePlayerId ∧
    (checkQuestDiscovery g s lid).1.exitStates = s.exitStates := by
  unfold checkQuestDiscovery
  split
  · cases g.quests.find? (fun q => q.id = "explore-shed") with
    | none => exact ⟨rfl, rfl, rfl⟩
    | some shedQuest =>
      dsimp only
      by_cases hq : s.getQuestState "explore-shed" = some "inactive"
      · rw [if_pos hq]; exact ⟨rfl, rfl, rfl⟩
      · rw [if_neg hq]; exact ⟨rfl, rfl, rfl⟩
  · exact ⟨rfl, rfl, rfl⟩

theorem getLocationDescription_fst (g : Game) (s : GameState) :
    (getLocationDescription g s).1.players = s.players ∧
    (getLocationDescription g s).1.activePlayerId = s.activePlayerId ∧
    (getLocationDescription g s).1.exitStates = s.exitStates := by
  unfold getLocationDescription
  cases h1 : jsStrOpt s.getCurrentLocation with
  | none => exact ⟨rfl, rfl, rfl⟩
  | some cur =>
    dsimp only
    cases h2 : g.getLocation cur with
    | none => exact ⟨rfl, rfl, rfl⟩
    | some loc =>
      dsimp only
      obtain ⟨ha, hb, hc⟩ := checkQuestDiscovery_fst g s cur
      cases hcdq : checkQuestDiscovery g s cur with
      | mk s' qm =>
        rw [hcdq] at ha hb hc
        exact ⟨ha, hb, hc⟩

theorem movePlayer_effect (s : GameState) (L : String) (pl : PlayerRec)
    (hap : s.getActivePlayer = some pl) :
    (s.movePlayer L none).players = jsSet s.players (optStr s.activePlayerId) (movedRec pl L) ∧
    (s.movePlayer L none).activePlayerId = s.activePlayerId ∧
    (s.movePlayer L none).exitStates = s.exitStates := by
  unfold GameState.getActivePlayer at hap
  unfold GameState.movePlayer
  have hor : jsOrStr none s.activePlayerId = s.activePlayerId := rfl
  simp only [hor, hap, movedRec]
  refine ⟨?_, ?_, ?_⟩ <;> trivial

theorem getActivePlayer_of_eq {s1 s2 : GameState}
    (hp : s1.players = s2.players) (ha : s1.activePlayerId = s2.activePlayerId) :
    s1.getActivePlayer = s2.getActivePlayer := by
  unfold GameState.getActivePlayer
  rw [hp, ha]

theorem unlockExit_isExitLocked (s : GameState) (a b : String) :
    (s.unlockExit a b).isExitLocked a b = false := by
  simp [GameState.isExitLocked, GameState.getExitState, GameState.unlockExit, jsGet_jsSet_self]

theorem movePlayer_exitStates (s : GameState) (L : String) (p : Option String) :
    (s.movePlayer L p).exitStates = s.exitStates := by
  simp only [GameState.movePlayer]
  split <;> rfl

theorem isExitLocked_congr {s1 s2 : GameState} (h : s1.exitStates = s2.exitStates)
    (a b : String) : s1.isExitLocked a b = s2.isExitLocked a b := by
  unfold GameState.isExitLocked GameState.getExitState
  rw [h]

theorem cmdGoAux_unlocked (g : Game) (fuel : Nat) (s : GameState) (dir cur : String)
    (loc : Location) (ex : Exit)
    (hcc : jsStrOpt s.getCurrentLocation = some cur)
    (hloc : g.getLocation cur = some loc)
    (hfind : loc.exits.find? (fun e =>
      jsLower e.direction = dir || jsStartsWith (jsLower e.direction) dir) = some ex)
    (hlk : s.isExitLocked cur ex.direction = false) :
    cmdGoAux g (fuel + 1) s dir =
      getLocationDescription g
        (if ex.leadsTo = "old-shed" then
          (s.movePlayer ex.leadsTo none).setFlag "quest-explore-shed-objective-enter-shed" true
        else s.movePlayer ex.leadsTo none) := by
  simp only [cmdGoAux, hcc, hloc, hfind, hlk, Bool.false_eq_true, if_false]

theorem cmdGoAux_locked_key (g : Game) (fuel : Nat) (s : GameState) (dir cur : String)
    (loc : Location) (ex : Exit) (ri : String)
    (hcc : jsStrOpt s.getCurrentLocation = some cur)
    (hloc : g.getLocation cur = some loc)
    (hfind : loc.exits.find? (fun e =>
      jsLower e.direction = dir || jsStartsWith (jsLower e.direction) dir) = some ex)
    (hlk : s.isExitLocked cur ex.direction = true)
    (hri : jsStrOpt ex.requiredItem = some ri)
    (hinv : s.isUniqueItemInInventory ri none = true) :
    cmdGoAux g (fuel + 1) s dir =
      ((cmdGoAux g fuel (s.unlockExit cur ex.direction) dir).1,
       "You use the " ++ (((g.getUniqueItem ri).map UniqueItem.name).getD "undefined") ++
         " to unlock the way " ++ ex.direction ++ ".\n\n" ++
         (cmdGoAux g fuel (s.unlockExit cur ex.direction) dir).2) := by
  simp only [cmdGoAux, hcc, hloc, hfind, hlk, hri, hinv, if_true]

theorem cmdGoAux_locked_nokey (g : Game) (fuel : Nat) (s : GameState) (dir cur : String)
    (loc : Location) (ex : Exit)
    (hcc : jsStrOpt s.getCurrentLocation = some cur)
    (hloc : g.getLocation cur = some loc)
    (hfind : loc.exits.find? (fun e =>
      jsLower e.direction = dir || jsStartsWith (jsLower e.direction) dir) = some ex)
    (hlk : s.isExitLocked cur ex.direction = true)
    (hnk : ∀ ri, jsStrOpt ex.requiredItem = some ri →
      s.isUniqueItemInInventory ri none = false) :
    cmdGoAux g (fuel + 1) s dir = (s, jsOrDefault ex.lockedMessage "That way is locked.") := by
  cases hri : jsStrOpt ex.requiredItem with
  | none => simp only [cmdGoAux, hcc, hloc, hfind, hlk, hri, if_true]
  | some ri =>
    have hinv := hnk ri hri
    simp only [cmdGoAux, hcc, hloc, hfind, hlk, hri, hinv, Bool.false_eq_true, if_false,
      if_true]

theorem final_getActivePlayer (g : Game) (s0 : GameState) (pl : PlayerRec) (L : String)
    (hap : s0.getActivePlayer = some pl) :
    (getLocationDescription g
      (if L = "old-shed" then
        (s0.movePlayer L none).setFlag "quest-explore-shed-objective-enter-shed" true
      else s0.movePlayer L none)).1.getActivePlayer = some (movedRec pl L) := by
  obtain ⟨mp, ma, _⟩ := movePlayer_effect s0 L pl hap
  obtain ⟨gp, ga, _⟩ := getLocationDescription_fst g
    (if L = "old-shed" then
      (s0.movePlayer L none).setFlag "quest-explore-shed-objective-enter-shed" true
    else s0.movePlayer L none)
  unfold GameState.getActivePlayer
  rw [gp, ga]
  have hp2 : (if L = "old-shed" then
      (s0.movePlayer L none).setFlag "quest-explore-shed-objective-enter-shed" true
    else s0.movePlayer L none).players
      = jsSet s0.players (optStr s0.activePlayerId) (movedRec pl L) := by
    split
    · exact mp
    · exact mp
  have ha2 : (if L = "old-shed" then
      (s0.movePlayer L none).setFlag "quest-explore-shed-objective-enter-shed" true
    else s0.movePlayer L none).activePlayerId = s0.activePlayerId := by
    split
    · exact ma
    · exact ma
  rw [hp2, ha2, jsGet_jsSet_self]

theorem final_exitStates_eq (g : Game) (s0 : GameState) (L : String) :
    (getLocationDescription g
      (if L = "old-shed" then
        (s0.movePlayer L none).setFlag "quest-explore-shed-objective-enter-shed" true
      else s0.movePlayer L none)).1.exitStates = s0.exitStates := by
  obtain ⟨_, _, ge⟩ := getLocationDescription_fst g
    (if L = "old-shed" then
      (s0.movePlayer L none).setFlag "quest-explore-shed-objective-enter-shed" true
    else s0.movePlayer L none)
  rw [ge]
  split
  · exact movePlayer_exitStates s0 L none
  · exact movePlayer_exitStates s0 L none

/-- C2: For a GO command naming a non-empty direction, where the active player's
current location has an exit whose (lowercased) direction equals the requested
direction or starts with it: (i) if the exit's dynamic state in `exitStates` is
locked and the active player's inventory holds the exit's `requiredItem`, the
exit is unlocked and the player is moved — `currentLocation` becomes the exit's
destination, the destination is appended to `visitedLocations` when absent, and
`turnCount` rises by exactly 1; (ii) if it is locked and the required item is
not in the inventory (or no item is required), the exit's locked message (with
its default) is returned and the state is completely unchanged; (iii) if it is
unlocked, the player is moved as in (i). -/
theorem go_movement (g : Game) (s : GameState) (dir : String) (pl : PlayerRec)
    (loc : Location) (ex : Exit)
    (hdir : dir ≠ "")
    (hap : s.getActivePlayer = some pl)
    (hcur : pl.currentLocation ≠ "")
    (hloc : g.getLocation pl.currentLocation = some loc)
    (hfind : loc.exits.find? (fun e =>
      jsLower e.direction = dir || jsStartsWith (jsLower e.direction) dir) = some ex) :
    (∀ ri, s.isExitLocked pl.currentLocation ex.direction = true →
       jsStrOpt ex.requiredItem = some ri →
       s.isUniqueItemInInventory ri none = true →
       (cmdGo g s (some dir)).1.getActivePlayer = some (movedRec pl ex.leadsTo) ∧
       (cmdGo g s (some dir)).1.isExitLocked pl.currentLocation ex.direction = false) ∧
    (s.isExitLocked pl.currentLocation ex.direction = true →
       (∀ ri, jsStrOpt ex.requiredItem = some ri →
         s.isUniqueItemInInventory ri none = false) →
       cmdGo g s (some dir) = (s, jsOrDefault ex.lockedMessage "That way is locked.")) ∧
    (s.isExitLocked pl.currentLocation ex.direction = false →
       (cmdGo g s (some dir)).1.getActivePlayer = some (movedRec pl ex.leadsTo)) := by
  have hcc : jsStrOpt s.getCurrentLocation = some pl.currentLocation := by
    unfold GameState.getCurrentLocation
    rw [hap]
    simp [jsStrOpt, hcur]
  have hgo : cmdGo g s (some dir) = cmdGoAux g 2 s dir := by
    unfold cmdGo
    simp [jsStrOpt, hdir]
  refine ⟨?_, ?_, ?_⟩
  · intro ri hlk hri hinv
    have e1 : cmdGoAux g 2 s dir =
        ((cmdGoAux g 1 (s.unlockExit pl.currentLocation ex.direction) dir).1,
         "You use the " ++ (((g.getUniqueItem ri).map UniqueItem.name).getD "undefined") ++
           " to unlock the way " ++ ex.direction ++ ".\n\n" ++
           (cmdGoAux g 1 (s.unlockExit pl.currentLocation ex.direction) dir).2) :=
      cmdGoAux_locked_key g 1 s dir pl.currentLocation loc ex ri hcc hloc hfind hlk hri hinv
    have hcc1 : jsStrOpt (s.unlockExit pl.currentLocation ex.direction).getCurrentLocation
        = some pl.currentLocation := hcc
    have hlk1 : (s.unlockExit pl.currentLocation ex.direction).isExitLocked
        pl.currentLocation ex.direction = false :=
      unlockExit_isExitLocked s pl.currentLocation ex.direction
    have e2 : cmdGoAux g 1 (s.unlockExit pl.currentLocation ex.direction) dir =
        getLocationDescription g
          (if ex.leadsTo = "old-shed" then
            ((s.unlockExit pl.currentLocation ex.direction).movePlayer ex.leadsTo none).setFlag
              "quest-explore-shed-objective-enter-shed" true
          else (s.unlockExit pl.currentLocation ex.direction).movePlayer ex.leadsTo none) :=
      cmdGoAux_unlocked g 0 (s.unlockExit pl.currentLocation ex.direction) dir
        pl.currentLocation loc ex hcc1 hloc hfind hlk1
    constructor
    · rw [hgo, e1, e2]
      exact final_getActivePlayer g (s.unlockExit pl.currentLocation ex.direction) pl
        ex.leadsTo hap
    · rw [hgo, e1, e2]
      exact (isExitLocked_congr
        (final_exitStates_eq g (s.unlockExit pl.currentLocation ex.direction) ex.leadsTo)
        pl.currentLocation ex.direction).trans hlk1
  · intro hlk hnk
    exact hgo.trans
      (cmdGoAux_locked_nokey g 1 s dir pl.currentLocation loc ex hcc hloc hfind hlk hnk)
  · intro hlk
    have e1 : cmdGoAux g 2 s dir =
        getLocationDescription g
          (if ex.leadsTo = "old-shed" then
            (s.movePlayer ex.leadsTo none).setFlag "quest-explore-shed-objective-enter-shed" true
          else s.movePlayer ex.leadsTo none) :=
      cmdGoAux_unlocked g 1 s dir pl.currentLocation loc ex hcc hloc hfind hlk
    rw [hgo, e1]
    exact final_getActivePlayer g s pl ex.leadsTo hap

theorem go_movement_witness :
    (cmdGo c2Game c2State (some "north")).1.getActivePlayer =
      some { currentLocation := "shed", score := 0, turnCount := 1,
             visitedLocations := ["room", "shed"], flags := [] } ∧
    (cmdGo c2Game c2State (some "north")).1.isExitLocked "room" "north" = false ∧
    cmdGo c2Game c2State (some "east") = (c2State, "The east door is barred.") ∧
    (cmdGo c2Game c2State (some "south")).1.getActivePlayer =
      some { currentLocation := "shed", score := 0, turnCount := 1,
             visitedLocations := ["room", "shed"], flags := [] } := by
  have h1 := go_movement c2Game c2State "north" c2P c2Room c2ExN (by decide) rfl
    (by decide) rfl rfl
  have h2 := go_movement c2Game c2State "east" c2P c2Room c2ExE (by decide) rfl
    (by decide) rfl rfl
  have h3 := go_movement c2Game c2State "south" c2P c2Room c2ExS (by decide) rfl
    (by decide) rfl rfl
  obtain ⟨k1, -, -⟩ := h1
  obtain ⟨-, k2, -⟩ := h2
  obtain ⟨-, -, k3⟩ := h3
  obtain ⟨a1, a2⟩ := k1 "iron-key" (by decide) rfl (by decide)
  refine ⟨a1.trans (by decide), a2, ?_, ?_⟩
  · have hk2 := k2 (by decide) (by intro ri h; exact Option.noConfusion h)
    exact hk2
  · exact (k3 (by decide)).trans (by decide)

